import Mathlib

/-!
# Verification of the color extraction and colorimetry engine

Shallow embedding of the non-UI utility layer of the repository
(`src/app/types/library.ts`, `src/app/utils/libraryStorage.ts`,
`src/app/utils/skiaColorExtractor.ts`) together with proofs about it.

Modelling conventions:
* JavaScript numbers are modelled by `ℚ` (all arithmetic in the embedded
  functions is exact decimal/rational arithmetic except for `Math.sqrt` and
  the two transcendental powers in `rgbToLab`, which are treated below where
  they occur); `Math.round` is `jsRound`, i.e. `⌊x + 1/2⌋` (round half up).
* A JavaScript `NaN` (produced by `parseInt` on non-numeric text) is modelled
  by `none` in `Option`-valued channels (`JsNum`).
* JavaScript `Map` is modelled by an association list in insertion order:
  `Map.set` of a fresh key appends at the end, `Map.keys().next().value` is
  the head, `Map.delete` of the head drops it.
* Strings are processed through their character lists (`String.data`).
-/

/-- `Math.round` of JavaScript: round half toward positive infinity. -/
def jsRound (x : ℚ) : ℤ := ⌊x + 1/2⌋

/-- Hexadecimal digit test, case insensitive (the `[a-f\d]` class with the
`i` flag, and the digit set accepted by `parseInt(_, 16)`). -/
def isHexDigit (c : Char) : Bool :=
  (('0' ≤ c) && (c ≤ '9')) || (('a' ≤ c) && (c ≤ 'f')) || (('A' ≤ c) && (c ≤ 'F'))

/-- Value of a hexadecimal digit character. -/
def hexDigitVal (c : Char) : ℕ :=
  if ('0' ≤ c) && (c ≤ '9') then c.toNat - '0'.toNat
  else if ('a' ≤ c) && (c ≤ 'f') then c.toNat - 'a'.toNat + 10
  else if ('A' ≤ c) && (c ≤ 'F') then c.toNat - 'A'.toNat + 10
  else 0

/-- Value of a list of hexadecimal digit characters (most significant first). -/
def hexVal (l : List Char) : ℕ := l.foldl (fun acc c => 16 * acc + hexDigitVal c) 0

namespace Library
/-! ## `src/app/types/library.ts`: the nearest color namer -/

/-- One entry of the static named-color table (`colorList`). -/
structure NamedColor where
  hex : String
  en : String
  vi : String
deriving DecidableEq, Repr

instance : Inhabited NamedColor := ⟨⟨"", "", ""⟩⟩

/-- An RGB triple as produced by the namer's parser (`parseInt` of two-digit
hex groups, hence natural numbers in 0..255). -/
structure RGBn where
  r : ℕ
  g : ℕ
  b : ℕ
deriving DecidableEq, Repr

/-- The match of `/^#?([a-f\d]{2})([a-f\d]{2})([a-f\d]{2})$/i.exec(hex)`:
an optional leading `#` followed by exactly six hex digits; on success the
three two-digit groups are returned. -/
def strictHexMatch (hex : String) : Option (List Char × List Char × List Char) :=
  let body := match hex.data with
    | '#' :: rest => rest
    | l => l
  match body with
  | [c1, c2, c3, c4, c5, c6] =>
    if isHexDigit c1 && isHexDigit c2 && isHexDigit c3 && isHexDigit c4 &&
       isHexDigit c5 && isHexDigit c6 then
      some ([c1, c2], [c3, c4], [c5, c6])
    else none
  | _ => none

/-- `hexToRgb` of `library.ts` (the namer's parser): regex match, with the
documented silent fallback to `(0,0,0)` when the strict regex fails. -/
def hexToRgb (hex : String) : RGBn :=
  match strictHexMatch hex with
  | some (g1, g2, g3) => ⟨hexVal g1, hexVal g2, hexVal g3⟩
  | none => ⟨0, 0, 0⟩

/-- `colorDistance` of `library.ts` computes
`Math.sqrt((Δr)² + (Δg)² + (Δb)²)`. The function is only ever used in
comparisons `distance < minDistance`; since `Math.sqrt` is strictly monotone
on the (exactly representable) integer squared distances involved, we embed
the squared distance, which induces the same comparisons. -/
def colorDistance (rgb1 rgb2 : RGBn) : ℤ :=
  ((rgb1.r : ℤ) - rgb2.r) ^ 2 + ((rgb1.g : ℤ) - rgb2.g) ^ 2 + ((rgb1.b : ℤ) - rgb2.b) ^ 2

set_option maxHeartbeats 1600000 in
/-- The static reference table `colorList` of `library.ts` (148 entries,
duplicate hex values permitted). -/
def colorList : List NamedColor := [
  NamedColor.mk "#F0F8FF" "AliceBlue" "Xanh da trời",
  NamedColor.mk "#FAEBD7" "AntiqueWhite" "Kem cổ",
  NamedColor.mk "#00FFFF" "Aqua" "Xanh ngọc",
  NamedColor.mk "#7FFFD4" "Aquamarine" "Xanh ngọc lam",
  NamedColor.mk "#F0FFFF" "Azure" "Xanh lam nhạt",
  NamedColor.mk "#F5F5DC" "Beige" "Be",
  NamedColor.mk "#FFE4C4" "Bisque" "Be hồng",
  NamedColor.mk "#000000" "Black" "Đen",
  NamedColor.mk "#FFEBCD" "BlanchedAlmond" "Vàng ngà",
  NamedColor.mk "#0000FF" "Blue" "Xanh da trời",
  NamedColor.mk "#8A2BE2" "BlueViolet" "Tím xanh",
  NamedColor.mk "#A52A2A" "Brown" "Nâu",
  NamedColor.mk "#DEB887" "Burlywood" "Vàng đất",
  NamedColor.mk "#5F9EA0" "CadetBlue" "Xanh da trời",
  NamedColor.mk "#7FFF00" "Chartreuse" "Xanh vàng",
  NamedColor.mk "#D2691E" "Chocolate" "Nâu sô cô la",
  NamedColor.mk "#FF7F50" "Coral" "Cam san hô",
  NamedColor.mk "#6495ED" "CornflowerBlue" "Xanh ngọc",
  NamedColor.mk "#FFF8DC" "Cornsilk" "Vàng ngô nhạt",
  NamedColor.mk "#DC143C" "Crimson" "Đỏ thẫm",
  NamedColor.mk "#00FFFF" "Cyan" "Xanh ngọc",
  NamedColor.mk "#00008B" "DarkBlue" "Xanh da trời đậm",
  NamedColor.mk "#008B8B" "DarkCyan" "Xanh lơ đậm",
  NamedColor.mk "#B8860B" "DarkGoldenrod" "Vàng hoe đậm",
  NamedColor.mk "#A9A9A9" "DarkGray" "Xám đậm",
  NamedColor.mk "#006400" "DarkGreen" "Xanh lá đậm",
  NamedColor.mk "#A9A9A9" "DarkGrey" "Xám đậm",
  NamedColor.mk "#BDB76B" "DarkKhaki" "Vàng kaki đậm",
  NamedColor.mk "#8B008B" "DarkMagenta" "Hồng thẫm",
  NamedColor.mk "#556B2F" "DarkOliveGreen" "Xanh ô liu đậm",
  NamedColor.mk "#FF8C00" "DarkOrange" "Cam đậm",
  NamedColor.mk "#9932CC" "DarkOrchid" "Tím ngọc đậm",
  NamedColor.mk "#8B0000" "DarkRed" "Đỏ đậm",
  NamedColor.mk "#E9967A" "DarkSalmon" "Cam đào đậm",
  NamedColor.mk "#8FBC8F" "DarkSeaGreen" "Xanh ngọc đậm",
  NamedColor.mk "#483D8B" "DarkSlateBlue" "Xanh đen đậm",
  NamedColor.mk "#2F4F4F" "DarkSlateGray" "Xám xanh đậm",
  NamedColor.mk "#2F4F4F" "DarkSlateGrey" "Xám xanh đậm",
  NamedColor.mk "#00CED1" "DarkTurquoise" "Xanh ngọc đậm",
  NamedColor.mk "#9400D3" "DarkViolet" "Tím đậm",
  NamedColor.mk "#FF1493" "DeepPink" "Hồng đậm",
  NamedColor.mk "#00BFFF" "DeepSkyBlue" "Xanh da trời đậm",
  NamedColor.mk "#696969" "DimGray" "Xám đậm",
  NamedColor.mk "#696969" "DimGrey" "Xám đậm",
  NamedColor.mk "#1E90FF" "DodgerBlue" "Xanh da trời",
  NamedColor.mk "#B22222" "FireBrick" "Đỏ gạch",
  NamedColor.mk "#FFFAF0" "FloralWhite" "Trắng hoa",
  NamedColor.mk "#228B22" "ForestGreen" "Xanh lục",
  NamedColor.mk "#FF00FF" "Fuchsia" "Hồng cánh sen",
  NamedColor.mk "#DCDCDC" "Gainsboro" "Xám nhạt",
  NamedColor.mk "#F8F8FF" "GhostWhite" "Trắng ma",
  NamedColor.mk "#FFD700" "Gold" "Vàng",
  NamedColor.mk "#DAA520" "Goldenrod" "Vàng hoe",
  NamedColor.mk "#808080" "Gray" "Xám",
  NamedColor.mk "#008000" "Green" "Xanh lá cây",
  NamedColor.mk "#ADFF2F" "GreenYellow" "Vàng lục",
  NamedColor.mk "#808080" "Grey" "Xám",
  NamedColor.mk "#F0FFF0" "HoneyDew" "Trắng ngọc nhạt",
  NamedColor.mk "#FF69B4" "HotPink" "Hồng nóng",
  NamedColor.mk "#CD5C5C" "IndianRed" "Đỏ đất",
  NamedColor.mk "#4B0082" "Indigo" "Chàm",
  NamedColor.mk "#FFFFF0" "Ivory" "Ngà",
  NamedColor.mk "#F0E68C" "Khaki" "Vàng nhạt",
  NamedColor.mk "#E6E6FA" "Lavender" "Tím oải hương",
  NamedColor.mk "#FFF0F5" "LavenderBlush" "Tím oải hương nhạt",
  NamedColor.mk "#7CFC00" "LawnGreen" "Xanh cỏ",
  NamedColor.mk "#FFFACD" "LemonChiffon" "Vàng chanh nhạt",
  NamedColor.mk "#ADD8E6" "LightBlue" "Xanh da trời nhạt",
  NamedColor.mk "#F08080" "LightCoral" "Hồng san hô nhạt",
  NamedColor.mk "#E0FFFF" "LightCyan" "Xanh ngọc nhạt",
  NamedColor.mk "#FAFAD2" "LightGoldenrodYellow" "Vàng hoe nhạt",
  NamedColor.mk "#D3D3D3" "LightGray" "Xám nhạt",
  NamedColor.mk "#90EE90" "LightGreen" "Xanh lá nhạt",
  NamedColor.mk "#D3D3D3" "LightGrey" "Xám nhạt",
  NamedColor.mk "#FFB6C1" "LightPink" "Hồng nhạt",
  NamedColor.mk "#FFA07A" "LightSalmon" "Cam nhạt",
  NamedColor.mk "#20B2AA" "LightSeaGreen" "Xanh nước biển nhạt",
  NamedColor.mk "#87CEFA" "LightSkyBlue" "Xanh da trời nhạt",
  NamedColor.mk "#778899" "LightSlateGray" "Xám xanh nhạt",
  NamedColor.mk "#778899" "LightSlateGrey" "Xám xanh nhạt",
  NamedColor.mk "#B0C4DE" "LightSteelBlue" "Xanh thép nhạt",
  NamedColor.mk "#FFFFE0" "LightYellow" "Vàng nhạt",
  NamedColor.mk "#00FF00" "Lime" "Xanh chanh",
  NamedColor.mk "#32CD32" "LimeGreen" "Xanh lá chanh",
  NamedColor.mk "#FAF0E6" "Linen" "Kem",
  NamedColor.mk "#FF00FF" "Magenta" "Hồng tươi",
  NamedColor.mk "#800000" "Maroon" "Đỏ hạt dẻ",
  NamedColor.mk "#66CDAA" "MediumAquaMarine" "Xanh ngọc vừa",
  NamedColor.mk "#0000CD" "MediumBlue" "Xanh dương",
  NamedColor.mk "#BA55D3" "MediumOrchid" "Tím hoa lan vừa",
  NamedColor.mk "#9370DB" "MediumPurple" "Tím nhạt",
  NamedColor.mk "#3CB371" "MediumSeaGreen" "Xanh ngọc",
  NamedColor.mk "#7B68EE" "MediumSlateBlue" "Xanh đen vừa",
  NamedColor.mk "#00FA9A" "MediumSpringGreen" "Xanh lục sáng vừa",
  NamedColor.mk "#48D1CC" "MediumTurquoise" "Xanh ngọc vừa",
  NamedColor.mk "#C71585" "MediumVioletRed" "Hồng tím trung bình",
  NamedColor.mk "#191970" "MidnightBlue" "Xanh đen",
  NamedColor.mk "#F5FFFA" "MintCream" "Trắng mint",
  NamedColor.mk "#FFE4E1" "MistyRose" "Hồng phấn nhạt",
  NamedColor.mk "#FFE4B5" "Moccasin" "Vàng kem",
  NamedColor.mk "#FFDEAD" "NavajoWhite" "Da",
  NamedColor.mk "#000080" "Navy" "Xanh dương đậm",
  NamedColor.mk "#FDF5E6" "OldLace" "Kem cổ",
  NamedColor.mk "#808000" "Olive" "Xanh ô liu",
  NamedColor.mk "#6B8E23" "OliveDrab" "Xanh ô liu sẫm",
  NamedColor.mk "#FFA500" "Orange" "Cam",
  NamedColor.mk "#FF4500" "OrangeRed" "Cam đỏ",
  NamedColor.mk "#DA70D6" "Orchid" "Tím lan",
  NamedColor.mk "#EEE8AA" "PaleGoldenrod" "Vàng hoe nhạt",
  NamedColor.mk "#98FB98" "PaleGreen" "Xanh lục nhạt",
  NamedColor.mk "#AFEEEE" "PaleTurquoise" "Xanh ngọc nhạt",
  NamedColor.mk "#DB7093" "PaleVioletRed" "Hồng tím nhạt",
  NamedColor.mk "#FFEFD5" "PapayaWhip" "Vàng da cam nhạt",
  NamedColor.mk "#FFDAB9" "PeachPuff" "Hồng đào nhạt",
  NamedColor.mk "#CD853F" "Peru" "Nâu đỏ",
  NamedColor.mk "#FFC0CB" "Pink" "Hồng",
  NamedColor.mk "#DDA0DD" "Plum" "Mận",
  NamedColor.mk "#B0E0E6" "PowderBlue" "Xanh nhạt",
  NamedColor.mk "#800080" "Purple" "Tím",
  NamedColor.mk "#663399" "RebeccaPurple" "Tím Rebecca",
  NamedColor.mk "#FF0000" "Red" "Đỏ",
  NamedColor.mk "#BC8F8F" "RosyBrown" "Nâu hồng",
  NamedColor.mk "#4169E1" "RoyalBlue" "Xanh chàm",
  NamedColor.mk "#8B4513" "SaddleBrown" "Nâu yên ngựa",
  NamedColor.mk "#FA8072" "Salmon" "Cam",
  NamedColor.mk "#F4A460" "SandyBrown" "Nâu cát",
  NamedColor.mk "#2E8B57" "SeaGreen" "Xanh ngọc",
  NamedColor.mk "#FFF5EE" "SeaShell" "Trắng ngọc trai",
  NamedColor.mk "#A0522D" "Sienna" "Nâu đỏ",
  NamedColor.mk "#C0C0C0" "Silver" "Bạc",
  NamedColor.mk "#87CEEB" "SkyBlue" "Xanh da trời",
  NamedColor.mk "#6A5ACD" "SlateBlue" "Xanh đen",
  NamedColor.mk "#708090" "SlateGray" "Xám xanh",
  NamedColor.mk "#708090" "SlateGrey" "Xám xanh",
  NamedColor.mk "#FFFAFA" "Snow" "Trắng tuyết",
  NamedColor.mk "#00FF7F" "SpringGreen" "Xanh lục sáng",
  NamedColor.mk "#4682B4" "SteelBlue" "Xanh thép",
  NamedColor.mk "#D2B48C" "Tan" "Vàng bò",
  NamedColor.mk "#008080" "Teal" "Xanh lơ đậm",
  NamedColor.mk "#D8BFD8" "Thistle" "Tím thạch thảo",
  NamedColor.mk "#FF6347" "Tomato" "Đỏ cà chua",
  NamedColor.mk "#40E0D0" "Turquoise" "Xanh ngọc",
  NamedColor.mk "#EE82EE" "Violet" "Tím",
  NamedColor.mk "#F5DEB3" "Wheat" "Vàng lúa",
  NamedColor.mk "#FFFFFF" "White" "Trắng",
  NamedColor.mk "#F5F5F5" "WhiteSmoke" "Trắng khói",
  NamedColor.mk "#FFFF00" "Yellow" "Vàng",
  NamedColor.mk "#9ACD32" "YellowGreen" "Vàng lục"]

/-- The name of a table entry in the requested language
(`language === "vi" ? nearestColor.vi : nearestColor.en`). -/
def nameOf (c : NamedColor) (language : String) : String :=
  if language = "vi" then c.vi else c.en

/-- The scan loop of `findNearestColorName`: `minDistance` starts at
`Infinity` (modelled `none`) and an entry replaces the current nearest only
on strictly smaller distance. -/
def findLoop (target : RGBn) : List NamedColor → NamedColor → Option ℤ → NamedColor
  | [], nearest, _ => nearest
  | c :: rest, nearest, minDist =>
    let distance := colorDistance target (hexToRgb c.hex)
    match minDist with
    | none => findLoop target rest c (some distance)
    | some d =>
      if distance < d then findLoop target rest c (some distance)
      else findLoop target rest nearest (some d)

/-- `findNearestColorName` of `library.ts`: nearest entry of `colorList` by
Euclidean RGB distance, first minimum wins; `nearestColor` is initialised to
`colorList[0]` and `minDistance` to `Infinity`. -/
def findNearestColorName (hexColor : String) (language : String := "en") : String :=
  let targetRgb := hexToRgb hexColor
  nameOf (findLoop targetRgb colorList (colorList.headI) none) language

end Library

namespace LibraryStorage
/-! ## `src/app/utils/libraryStorage.ts`: the color model converter -/

/-- A JavaScript number that may be `NaN` (`none`). `parseInt` on
non-numeric text yields `NaN`, which then propagates through arithmetic. -/
abbrev JsNum := Option ℚ

/-- Truncation toward zero (`Math.trunc`, and the division underlying the
JavaScript `%` operator). -/
def jsTrunc (x : ℚ) : ℤ := Int.tdiv x.num x.den

/-- The JavaScript `%` operator on numbers: `x - n * trunc(x / n)`. -/
def jsModulo (x n : ℚ) : ℚ := x - n * jsTrunc (x / n)

/-- `RGB` with possibly-`NaN` channels, as flowing through `convertColor`. -/
structure RGBj where
  r : JsNum
  g : JsNum
  b : JsNum
deriving DecidableEq, Repr

/-- `HSL` with possibly-`NaN` channels. -/
structure HSLj where
  h : JsNum
  s : JsNum
  l : JsNum
deriving DecidableEq, Repr

/-- `HSV` with possibly-`NaN` channels. -/
structure HSVj where
  h : JsNum
  s : JsNum
  v : JsNum
deriving DecidableEq, Repr

/-- `CMYK` with possibly-`NaN` channels. -/
structure CMYKj where
  c : JsNum
  m : JsNum
  y : JsNum
  k : JsNum
deriving DecidableEq, Repr

/-- `YUV` with possibly-`NaN` channels. -/
structure YUVj where
  y : JsNum
  u : JsNum
  v : JsNum
deriving DecidableEq, Repr

/-- `Lab` with possibly-`NaN` channels. -/
structure Labj where
  l : JsNum
  a : JsNum
  b : JsNum
deriving DecidableEq, Repr

/-- `RYB` with possibly-`NaN` channels. -/
structure RYBj where
  r : JsNum
  y : JsNum
  b : JsNum
deriving DecidableEq, Repr

/-- Exact-number `HSL` as returned by `rgbToHsl` (all three components are
`Math.round`ed to integers by the source). -/
structure HSL where
  h : ℤ
  s : ℤ
  l : ℤ
deriving DecidableEq, Repr

/-- Exact-number `RGB` as returned by the `...ToRgb` conversions (all three
components are `Math.round`ed to integers by the source). -/
structure RGBi where
  r : ℤ
  g : ℤ
  b : ℤ
deriving DecidableEq, Repr

/-- Exact-number `HSV` as returned by `rgbToHsv`. -/
structure HSV where
  h : ℤ
  s : ℤ
  v : ℤ
deriving DecidableEq, Repr

/-- `CMYK` as returned by `rgbToCmyk` (components rounded to 2 decimals,
hence rationals). -/
structure CMYK where
  c : ℚ
  m : ℚ
  y : ℚ
  k : ℚ
deriving DecidableEq, Repr

/-- `YUV` as returned by `rgbToYuv` (components rounded to 2 decimals). -/
structure YUV where
  y : ℚ
  u : ℚ
  v : ℚ
deriving DecidableEq, Repr

/-- `Lab` as returned by `rgbToLab` (components rounded to integers). -/
structure Lab where
  l : ℤ
  a : ℤ
  b : ℤ
deriving DecidableEq, Repr

/-- `RYB` as returned by `rgbToRyb` (components rounded to integers). -/
structure RYBi where
  r : ℤ
  y : ℤ
  b : ℤ
deriving DecidableEq, Repr

/-- JavaScript whitespace skipped by `parseInt`. -/
def isJsWhitespace (c : Char) : Bool :=
  c = ' ' || c = '\t' || c = '\n' || c = '\r'

/-- `parseInt(s, 16)` of JavaScript: skip leading whitespace, optional sign,
optional `0x`/`0X` prefix, then the longest prefix of hex digits; `NaN`
(`none`) if that prefix is empty. -/
def parseIntHex (l : List Char) : Option ℤ :=
  let l := l.dropWhile isJsWhitespace
  let sl : ℤ × List Char := match l with
    | '-' :: rest => (-1, rest)
    | '+' :: rest => (1, rest)
    | l => (1, l)
  let l := match sl.2 with
    | '0' :: c :: rest => if c = 'x' || c = 'X' then rest else '0' :: c :: rest
    | l => l
  let digits := l.takeWhile isHexDigit
  if digits.isEmpty then none else some (sl.1 * hexVal digits)

/-- `hexToRgb` of `libraryStorage.ts`: strip one leading `#`, expand 3-digit
shorthand by digit duplication, then `parseInt` the three 2-character
substrings.  No validation: non-hex text makes `parseInt` return `NaN`. -/
def hexToRgb (hex : String) : RGBj :=
  let l := match hex.data with
    | '#' :: rest => rest
    | l => l
  let l := match l with
    | [c1, c2, c3] => [c1, c1, c2, c2, c3, c3]
    | l => l
  let sub := fun (i j : ℕ) => (l.take j).drop i
  ⟨(parseIntHex (sub 0 2)).map (fun z => (z : ℚ)),
   (parseIntHex (sub 2 4)).map (fun z => (z : ℚ)),
   (parseIntHex (sub 4 6)).map (fun z => (z : ℚ))⟩

/-- Lowercase hexadecimal digit character (`Number.prototype.toString(16)`
digit alphabet). -/
def toHexChar (n : ℕ) : Char :=
  if n < 10 then Char.ofNat ('0'.toNat + n) else Char.ofNat ('a'.toNat + n - 10)

/-- `x.toString(16)` padded to two digits, for the clamped channel values
in `0..255` produced inside `rgbToHex`. -/
def toHex2 (n : ℕ) : List Char :=
  if n < 16 then ['0', toHexChar n] else [toHexChar (n / 16), toHexChar (n % 16)]

/-- One channel of `rgbToHex`:
`Math.max(0, Math.min(255, Math.round(x))).toString(16)`, zero-padded. -/
def hexChannel (x : ℚ) : List Char := toHex2 (max 0 (min 255 (jsRound x))).toNat

/-- `rgbToHex` of `libraryStorage.ts`. -/
def rgbToHex (r g b : ℚ) : String :=
  ⟨'#' :: (hexChannel r ++ hexChannel g ++ hexChannel b)⟩

/-- `rgbToCmyk` of `libraryStorage.ts` (with its `k == 1` pure-black
special case and 2-decimal rounding). -/
def rgbToCmyk (r g b : ℚ) : CMYK :=
  let nR := r / 255
  let nG := g / 255
  let nB := b / 255
  let k := 1 - max nR (max nG nB)
  if k = 1 then ⟨0, 0, 0, 1⟩
  else
    let c := (1 - nR - k) / (1 - k)
    let m := (1 - nG - k) / (1 - k)
    let y := (1 - nB - k) / (1 - k)
    ⟨(jsRound (c * 100) : ℚ) / 100, (jsRound (m * 100) : ℚ) / 100,
     (jsRound (y * 100) : ℚ) / 100, (jsRound (k * 100) : ℚ) / 100⟩

/-- `cmykToRgb` of `libraryStorage.ts`. -/
def cmykToRgb (c m y k : ℚ) : RGBi :=
  let c := min 1 (max 0 c)
  let m := min 1 (max 0 m)
  let y := min 1 (max 0 y)
  let k := min 1 (max 0 k)
  ⟨jsRound (255 * (1 - c) * (1 - k)),
   jsRound (255 * (1 - m) * (1 - k)),
   jsRound (255 * (1 - y) * (1 - k))⟩

/-- `rgbToHsl` of `libraryStorage.ts`: max/min decomposition, achromatic
short-circuit, saturation branch on the lightness side, hue branch by the
maximal channel (`switch (max)` matches the `R` case first, then `G`,
then `B`), all three outputs `Math.round`ed. -/
def rgbToHsl (r g b : ℚ) : HSL :=
  let nR := r / 255
  let nG := g / 255
  let nB := b / 255
  let mx := max nR (max nG nB)
  let mn := min nR (min nG nB)
  let l := (mx + mn) / 2
  if mx = mn then ⟨0, 0, jsRound (l * 100)⟩
  else
    let d := mx - mn
    let s := if l > 1/2 then d / (2 - mx - mn) else d / (mx + mn)
    let h :=
      if nR = mx then ((nG - nB) / d + (if nG < nB then 6 else 0)) * 60
      else if nG = mx then ((nB - nR) / d + 2) * 60
      else ((nR - nG) / d + 4) * 60
    ⟨jsRound h, jsRound (s * 100), jsRound (l * 100)⟩

/-- The `hueToRgb` helper inside `hslToRgb` (classic piecewise hue ramp;
the two wrap-around adjustments are applied sequentially as in the
source). -/
def hueToRgb (p q t : ℚ) : ℚ :=
  let t := if t < 0 then t + 1 else t
  let t := if t > 1 then t - 1 else t
  if t < 1/6 then p + (q - p) * 6 * t
  else if t < 1/2 then q
  else if t < 2/3 then p + (q - p) * (2/3 - t) * 6
  else p

/-- `hslToRgb` of `libraryStorage.ts`: hue wrapped via
`((h % 360) + 360) % 360`, saturation/lightness clamped to `[0,100]`,
achromatic gray short-circuit, otherwise the `p,q` decomposition and
`hueToRgb` at the three phase offsets. -/
def hslToRgb (h s l : ℚ) : RGBi :=
  let h := jsModulo (jsModulo h 360 + 360) 360
  let s := min 100 (max 0 s) / 100
  let l := min 100 (max 0 l) / 100
  if s = 0 then
    let value := jsRound (l * 255)
    ⟨value, value, value⟩
  else
    let q := if l < 1/2 then l * (1 + s) else l + s - l * s
    let p := 2 * l - q
    let nh := h / 360
    ⟨jsRound (hueToRgb p q (nh + 1/3) * 255),
     jsRound (hueToRgb p q nh * 255),
     jsRound (hueToRgb p q (nh - 1/3) * 255)⟩

/-- `rgbToHsv` of `libraryStorage.ts`. -/
def rgbToHsv (r g b : ℚ) : HSV :=
  let nR := r / 255
  let nG := g / 255
  let nB := b / 255
  let mx := max nR (max nG nB)
  let mn := min nR (min nG nB)
  let d := mx - mn
  let s := if mx = 0 then 0 else d / mx
  let v := mx
  let h :=
    if mx = mn then 0
    else if nR = mx then ((nG - nB) / d + (if nG < nB then 6 else 0)) * 60
    else if nG = mx then ((nB - nR) / d + 2) * 60
    else ((nR - nG) / d + 4) * 60
  ⟨jsRound h, jsRound (s * 100), jsRound (v * 100)⟩

/-- `hsvToRgb` of `libraryStorage.ts` (six-sector `c,x,m`
decomposition). -/
def hsvToRgb (h s v : ℚ) : RGBi :=
  let h := jsModulo (jsModulo h 360 + 360) 360
  let s := min 100 (max 0 s) / 100
  let v := min 100 (max 0 v) / 100
  let c := v * s
  let x := c * (1 - |jsModulo (h / 60) 2 - 1|)
  let m := v - c
  let rgb : ℚ × ℚ × ℚ :=
    if h < 60 then (c, x, 0)
    else if h < 120 then (x, c, 0)
    else if h < 180 then (0, c, x)
    else if h < 240 then (0, x, c)
    else if h < 300 then (x, 0, c)
    else (c, 0, x)
  ⟨jsRound ((rgb.1 + m) * 255), jsRound ((rgb.2.1 + m) * 255),
   jsRound ((rgb.2.2 + m) * 255)⟩

/-- `rgbToYuv` of `libraryStorage.ts` (BT.709 luma, 2-decimal rounding). -/
def rgbToYuv (r g b : ℚ) : YUV :=
  let nR := r / 255
  let nG := g / 255
  let nB := b / 255
  let y := 0.2126 * nR + 0.7152 * nG + 0.0722 * nB
  let u := 0.492 * (nB - y)
  let v := 0.877 * (nR - y)
  ⟨(jsRound (y * 100) : ℚ) / 100, (jsRound (u * 100) : ℚ) / 100,
   (jsRound (v * 100) : ℚ) / 100⟩

/-- `yuvToRgb` of `libraryStorage.ts` (output clamped to `[0,1]` before
scaling to 255). -/
def yuvToRgb (y u v : ℚ) : RGBi :=
  let r := y + 1.13983 * v
  let g := y - 0.39465 * u - 0.5806 * v
  let b := y + 2.03211 * u
  ⟨jsRound (max 0 (min 1 r) * 255), jsRound (max 0 (min 1 g) * 255),
   jsRound (max 0 (min 1 b) * 255)⟩

/-- `rgbToLab` of `libraryStorage.ts`.  The two transcendental maps of the
source, `Math.pow(_, 2.4)` in the gamma linearisation and `Math.pow(_, 1/3)`
in the XYZ-to-Lab step, have no exact rational counterpart, so the embedding
takes them as parameters (`powGamma`, `powCbrt`); every theorem about the
dispatcher quantifies over them. -/
def rgbToLab (powGamma powCbrt : ℚ → ℚ) (r g b : ℚ) : Lab :=
  let gam := fun (x : ℚ) => if x > 0.04045 then powGamma ((x + 0.055) / 1.055) else x / 12.92
  let nR := gam (r / 255)
  let nG := gam (g / 255)
  let nB := gam (b / 255)
  let x := nR * 0.4124 + nG * 0.3576 + nB * 0.1805
  let y := nR * 0.2126 + nG * 0.7152 + nB * 0.0722
  let z := nR * 0.0193 + nG * 0.1192 + nB * 0.9505
  let xNorm := x / 0.95047
  let yNorm := y / 1.0
  let zNorm := z / 1.08883
  let f := fun (t : ℚ) => if t > 0.008856 then powCbrt t else 7.787 * t + 16/116
  let fx := f xNorm
  let fy := f yNorm
  let fz := f zNorm
  ⟨jsRound (116 * fy - 16), jsRound (500 * (fx - fy)), jsRound (200 * (fy - fz))⟩

/-- `rgbToRyb` of `libraryStorage.ts` (white-component removal,
redistribution, normalisation by the ratio of maxima, output clamped and
rounded). -/
def rgbToRyb (r g b : ℚ) : RYBi :=
  let nR := r / 255
  let nG := g / 255
  let nB := b / 255
  let w := min nR (min nG nB)
  let redAdjusted := nR - w
  let greenAdjusted := nG - w
  let blueAdjusted := nB - w
  let mg := max redAdjusted (max greenAdjusted blueAdjusted)
  let rybR := redAdjusted - min redAdjusted greenAdjusted
  let rybY := (greenAdjusted + min redAdjusted greenAdjusted) / 2
  let rybB := (blueAdjusted + min greenAdjusted blueAdjusted) / 2
  let ryb : ℚ × ℚ × ℚ :=
    if mg > 0 then
      let n := max rybR (max rybY rybB) / mg
      if n > 0 then (rybR / n, rybY / n, rybB / n) else (rybR, rybY, rybB)
    else (rybR, rybY, rybB)
  ⟨jsRound (max 0 (min 1 (ryb.1 + w)) * 255),
   jsRound (max 0 (min 1 (ryb.2.1 + w)) * 255),
   jsRound (max 0 (min 1 (ryb.2.2 + w)) * 255)⟩

/-- `rybToRgb` of `libraryStorage.ts` (mirror image of `rgbToRyb`). -/
def rybToRgb (r y b : ℚ) : RGBi :=
  let nR := r / 255
  let nY := y / 255
  let nB := b / 255
  let w := min nR (min nY nB)
  let redAdjusted := nR - w
  let yellowAdjusted := nY - w
  let blueAdjusted := nB - w
  let my := max redAdjusted (max yellowAdjusted blueAdjusted)
  let rgbR := redAdjusted - min redAdjusted yellowAdjusted
  let rgbG := (yellowAdjusted + min redAdjusted yellowAdjusted) / 2
  let rgbB := (blueAdjusted + min yellowAdjusted blueAdjusted) / 2
  let rgb : ℚ × ℚ × ℚ :=
    if my > 0 then
      let n := max rgbR (max rgbG rgbB) / my
      if n > 0 then (rgbR / n, rgbG / n, rgbB / n) else (rgbR, rgbG, rgbB)
    else (rgbR, rgbG, rgbB)
  ⟨jsRound (max 0 (min 1 (rgb.1 + w)) * 255),
   jsRound (max 0 (min 1 (rgb.2.1 + w)) * 255),
   jsRound (max 0 (min 1 (rgb.2.2 + w)) * 255)⟩

end LibraryStorage

namespace LibraryStorage

/-- A runtime color value passed to the generic dispatcher `convertColor`
(the TypeScript union `RGB | HSL | HSV | CMYK | YUV | Lab | RYB | string`). -/
inductive ColorValue where
  | rgb : RGBj → ColorValue
  | hsl : HSLj → ColorValue
  | hsv : HSVj → ColorValue
  | cmyk : CMYKj → ColorValue
  | yuv : YUVj → ColorValue
  | lab : Labj → ColorValue
  | ryb : RYBj → ColorValue
  | str : String → ColorValue
deriving DecidableEq, Repr

/-!
The TypeScript casts `color as RGB` etc. are erased at runtime; JavaScript
simply reads the fields structurally, and a field absent from the actual
value reads as `undefined`, which behaves as `NaN` (`none`) in the
subsequent arithmetic.  The `as...` functions below perform exactly that
structural field access (e.g. a `Lab` value `{l,a,b}` read as `RGB`
provides only its `b` field).
-/

/-- Structural read of a `ColorValue` as `{r,g,b}`. -/
def asRGB : ColorValue → RGBj
  | .rgb v => v
  | .lab v => ⟨none, none, v.b⟩
  | .ryb v => ⟨v.r, none, v.b⟩
  | _ => ⟨none, none, none⟩

/-- Structural read of a `ColorValue` as `{h,s,l}`. -/
def asHSL : ColorValue → HSLj
  | .hsl v => v
  | .hsv v => ⟨v.h, v.s, none⟩
  | .lab v => ⟨none, none, v.l⟩
  | _ => ⟨none, none, none⟩

/-- Structural read of a `ColorValue` as `{h,s,v}`. -/
def asHSV : ColorValue → HSVj
  | .hsv v => v
  | .hsl v => ⟨v.h, v.s, none⟩
  | .yuv v => ⟨none, none, v.v⟩
  | _ => ⟨none, none, none⟩

/-- Structural read of a `ColorValue` as `{c,m,y,k}`. -/
def asCMYK : ColorValue → CMYKj
  | .cmyk v => v
  | .yuv v => ⟨none, none, v.y, none⟩
  | .ryb v => ⟨none, none, v.y, none⟩
  | _ => ⟨none, none, none, none⟩

/-- Structural read of a `ColorValue` as `{y,u,v}`. -/
def asYUV : ColorValue → YUVj
  | .yuv v => v
  | .cmyk v => ⟨v.y, none, none⟩
  | .ryb v => ⟨v.y, none, none⟩
  | .hsv v => ⟨none, none, v.v⟩
  | _ => ⟨none, none, none⟩

/-- Structural read of a `ColorValue` as `{r,y,b}`. -/
def asRYB : ColorValue → RYBj
  | .ryb v => v
  | .rgb v => ⟨v.r, none, v.b⟩
  | .cmyk v => ⟨none, v.y, none⟩
  | .yuv v => ⟨none, v.y, none⟩
  | .lab v => ⟨none, none, v.b⟩
  | _ => ⟨none, none, none⟩

/-- Read of a `ColorValue` as a string (`color as string`).  On a
non-string value the source would fail with a `TypeError` inside
`hexToRgb`; theorems about the `"hex"` source format therefore carry the
hypothesis that the value is a string. -/
def asString : ColorValue → String
  | .str s => s
  | _ => ""

/-- `NaN`-strict lifting of `hslToRgb` to possibly-`NaN` channels: any
`NaN` input channel makes every output channel `NaN`, mirroring the
source's arithmetic on `undefined`/`NaN` fields. -/
def hslToRgbJ (v : HSLj) : RGBj :=
  match v.h, v.s, v.l with
  | some h, some s, some l =>
    let o := hslToRgb h s l
    ⟨some (o.r : ℚ), some (o.g : ℚ), some (o.b : ℚ)⟩
  | _, _, _ => ⟨none, none, none⟩

/-- `NaN`-strict lifting of `hsvToRgb`. -/
def hsvToRgbJ (v : HSVj) : RGBj :=
  match v.h, v.s, v.v with
  | some h, some s, some v' =>
    let o := hsvToRgb h s v'
    ⟨some (o.r : ℚ), some (o.g : ℚ), some (o.b : ℚ)⟩
  | _, _, _ => ⟨none, none, none⟩

/-- `NaN`-strict lifting of `cmykToRgb`. -/
def cmykToRgbJ (v : CMYKj) : RGBj :=
  match v.c, v.m, v.y, v.k with
  | some c, some m, some y, some k =>
    let o := cmykToRgb c m y k
    ⟨some (o.r : ℚ), some (o.g : ℚ), some (o.b : ℚ)⟩
  | _, _, _, _ => ⟨none, none, none⟩

/-- `NaN`-strict lifting of `yuvToRgb`. -/
def yuvToRgbJ (v : YUVj) : RGBj :=
  match v.y, v.u, v.v with
  | some y, some u, some v' =>
    let o := yuvToRgb y u v'
    ⟨some (o.r : ℚ), some (o.g : ℚ), some (o.b : ℚ)⟩
  | _, _, _ => ⟨none, none, none⟩

/-- `NaN`-strict lifting of `rybToRgb`. -/
def rybToRgbJ (v : RYBj) : RGBj :=
  match v.r, v.y, v.b with
  | some r, some y, some b =>
    let o := rybToRgb r y b
    ⟨some (o.r : ℚ), some (o.g : ℚ), some (o.b : ℚ)⟩
  | _, _, _ => ⟨none, none, none⟩

/-- `NaN`-strict lifting of `rgbToHsl`. -/
def rgbToHslJ (v : RGBj) : HSLj :=
  match v.r, v.g, v.b with
  | some r, some g, some b =>
    let o := rgbToHsl r g b
    ⟨some (o.h : ℚ), some (o.s : ℚ), some (o.l : ℚ)⟩
  | _, _, _ => ⟨none, none, none⟩

/-- `NaN`-strict lifting of `rgbToHsv`. -/
def rgbToHsvJ (v : RGBj) : HSVj :=
  match v.r, v.g, v.b with
  | some r, some g, some b =>
    let o := rgbToHsv r g b
    ⟨some (o.h : ℚ), some (o.s : ℚ), some (o.v : ℚ)⟩
  | _, _, _ => ⟨none, none, none⟩

/-- `NaN`-strict lifting of `rgbToCmyk`. -/
def rgbToCmykJ (v : RGBj) : CMYKj :=
  match v.r, v.g, v.b with
  | some r, some g, some b =>
    let o := rgbToCmyk r g b
    ⟨some o.c, some o.m, some o.y, some o.k⟩
  | _, _, _ => ⟨none, none, none, none⟩

/-- `NaN`-strict lifting of `rgbToYuv`. -/
def rgbToYuvJ (v : RGBj) : YUVj :=
  match v.r, v.g, v.b with
  | some r, some g, some b =>
    let o := rgbToYuv r g b
    ⟨some o.y, some o.u, some o.v⟩
  | _, _, _ => ⟨none, none, none⟩

/-- `NaN`-strict lifting of `rgbToLab`. -/
def rgbToLabJ (powGamma powCbrt : ℚ → ℚ) (v : RGBj) : Labj :=
  match v.r, v.g, v.b with
  | some r, some g, some b =>
    let o := rgbToLab powGamma powCbrt r g b
    ⟨some (o.l : ℚ), some (o.a : ℚ), some (o.b : ℚ)⟩
  | _, _, _ => ⟨none, none, none⟩

/-- `NaN`-strict lifting of `rgbToRyb`. -/
def rgbToRybJ (v : RGBj) : RYBj :=
  match v.r, v.g, v.b with
  | some r, some g, some b =>
    let o := rgbToRyb r g b
    ⟨some (o.r : ℚ), some (o.y : ℚ), some (o.b : ℚ)⟩
  | _, _, _ => ⟨none, none, none⟩

/-- One channel of `rgbToHex` on a possibly-`NaN` value
(`NaN.toString(16)` is the text `"NaN"`). -/
def hexChannelJ : JsNum → List Char
  | some q => hexChannel q
  | none => ['N', 'a', 'N']

/-- `rgbToHex` as applied by the dispatcher to the possibly-`NaN` hub
value. -/
def rgbToHexJ (v : RGBj) : String :=
  ⟨'#' :: (hexChannelJ v.r ++ hexChannelJ v.g ++ hexChannelJ v.b)⟩

/-- The format tags recognised by the `convertColor` type signature
(`"rgb" | "hsl" | "hsv" | "cmyk" | "yuv" | "lab" | "ryb" | "hex"`). -/
def recognizedFormats : List String :=
  ["rgb", "hsl", "hsv", "cmyk", "yuv", "lab", "ryb", "hex"]

/-- `convertColor` of `libraryStorage.ts`: route through RGB as the hub
representation; a format tag that reaches a `default` branch of either
`switch` throws (`Except.error`).  The `switch (fromFormat)` has cases
`rgb, hex, hsl, hsv, cmyk, yuv, ryb` (no `lab`); the `switch (toFormat)`
has cases `rgb, hex, hsl, hsv, cmyk, yuv, lab, ryb`.  `powGamma`/`powCbrt`
are the transcendental-power parameters of `rgbToLab`. -/
def convertColor (powGamma powCbrt : ℚ → ℚ) (color : ColorValue)
    (fromFormat toFormat : String) : Except String ColorValue :=
  let rgbE : Except String RGBj :=
    if fromFormat = "rgb" then .ok (asRGB color)
    else if fromFormat = "hex" then .ok (hexToRgb (asString color))
    else if fromFormat = "hsl" then .ok (hslToRgbJ (asHSL color))
    else if fromFormat = "hsv" then .ok (hsvToRgbJ (asHSV color))
    else if fromFormat = "cmyk" then .ok (cmykToRgbJ (asCMYK color))
    else if fromFormat = "yuv" then .ok (yuvToRgbJ (asYUV color))
    else if fromFormat = "ryb" then .ok (rybToRgbJ (asRYB color))
    else .error ("Unsupported format conversion from: " ++ fromFormat)
  match rgbE with
  | .error e => .error e
  | .ok rgb =>
    if toFormat = "rgb" then .ok (.rgb rgb)
    else if toFormat = "hex" then .ok (.str (rgbToHexJ rgb))
    else if toFormat = "hsl" then .ok (.hsl (rgbToHslJ rgb))
    else if toFormat = "hsv" then .ok (.hsv (rgbToHsvJ rgb))
    else if toFormat = "cmyk" then .ok (.cmyk (rgbToCmykJ rgb))
    else if toFormat = "yuv" then .ok (.yuv (rgbToYuvJ rgb))
    else if toFormat = "lab" then .ok (.lab (rgbToLabJ powGamma powCbrt rgb))
    else if toFormat = "ryb" then .ok (.ryb (rgbToRybJ rgb))
    else .error ("Unsupported format conversion to: " ++ toFormat)

end LibraryStorage

namespace SkiaColorExtractor
/-! ## `src/app/utils/skiaColorExtractor.ts`: pixel buffer cache and sampler -/

/-- `ColorResult` (`a` is present in every constructed result). -/
structure ColorResult where
  r : ℕ
  g : ℕ
  b : ℕ
  a : ℕ
deriving DecidableEq, Repr

/-- The decoded pixel buffer as returned by `getImagePixels`: RGBA8888
bytes together with the image dimensions. -/
structure PixelData where
  pixels : List ℕ
  width : ℕ
  height : ℕ
deriving DecidableEq, Repr

/-- `getColorAtPixel`, applied to the result of `getImagePixels`
(`none` models a failed load/decode): bounds check, then
`pixelIndex = (y*width + x) * 4`, then the in-buffer check
`pixelIndex + 3 >= pixels.length`. -/
def getColorAtPixel (imageData : Option PixelData) (x y : ℤ) : Option ColorResult :=
  match imageData with
  | none => none
  | some d =>
    if x < 0 ∨ x ≥ (d.width : ℤ) ∨ y < 0 ∨ y ≥ (d.height : ℤ) then none
    else
      let pixelIndex := ((y * d.width + x) * 4).toNat
      if pixelIndex + 3 ≥ d.pixels.length then none
      else
        some ⟨d.pixels.getD pixelIndex 0, d.pixels.getD (pixelIndex + 1) 0,
              d.pixels.getD (pixelIndex + 2) 0, d.pixels.getD (pixelIndex + 3) 0⟩

/-- `extractCenterColor`: `getColorAtPixel` at
`(Math.floor(width/2), Math.floor(height/2))`. -/
def extractCenterColor (imageData : Option PixelData) : Option ColorResult :=
  match imageData with
  | none => none
  | some d => getColorAtPixel (some d) ((d.width / 2 : ℕ) : ℤ) ((d.height / 2 : ℕ) : ℤ)

/-- The per-pixel accumulator of `extractRegionAverageColor`. -/
structure RegionAcc where
  totalR : ℕ
  totalG : ℕ
  totalB : ℕ
  totalA : ℕ
  validPixels : ℕ
deriving Repr

/-- The clipped x-range of `extractRegionAverageColor`:
`startX = max(0, centerX − radius)` up to
`endX = min(width − 1, centerX + radius)` inclusive. -/
def regionXs (d : PixelData) (centerX radius : ℤ) : List ℤ :=
  let startX := max 0 (centerX - radius)
  let endX := min ((d.width : ℤ) - 1) (centerX + radius)
  (List.range (endX + 1 - startX).toNat).map (fun i => startX + i)

/-- The clipped y-range of `extractRegionAverageColor`. -/
def regionYs (d : PixelData) (centerY radius : ℤ) : List ℤ :=
  let startY := max 0 (centerY - radius)
  let endY := min ((d.height : ℤ) - 1) (centerY + radius)
  (List.range (endY + 1 - startY).toNat).map (fun i => startY + i)

/-- The accumulation loop of `extractRegionAverageColor` over the clipped
rectangle (skipping offsets past the buffer). -/
def regionAccOf (d : PixelData) (centerX centerY radius : ℤ) : RegionAcc :=
  (regionXs d centerX radius).foldl (fun acc (x : ℤ) =>
    (regionYs d centerY radius).foldl (fun (acc : RegionAcc) (y : ℤ) =>
      let pixelIndex := ((y * (d.width : ℤ) + x) * 4).toNat
      if pixelIndex + 3 < d.pixels.length then
        ⟨acc.totalR + d.pixels.getD pixelIndex 0,
         acc.totalG + d.pixels.getD (pixelIndex + 1) 0,
         acc.totalB + d.pixels.getD (pixelIndex + 2) 0,
         acc.totalA + d.pixels.getD (pixelIndex + 3) 0,
         acc.validPixels + 1⟩
      else acc) acc) ⟨0, 0, 0, 0, 0⟩

/-- `extractRegionAverageColor`: the sample square
`[center − radius, center + radius]` is clipped to the buffer bounds
(`startX = max(0, centerX − radius)`, `endX = min(width − 1, centerX + radius)`,
same for `y`); all pixels of the clipped rectangle are averaged and
`null` is returned only when no pixel was accumulated. -/
def extractRegionAverageColor (imageData : Option PixelData)
    (centerX centerY : ℤ) (radius : ℤ := 2) : Option ColorResult :=
  match imageData with
  | none => none
  | some d =>
    let acc := regionAccOf d centerX centerY radius
    if acc.validPixels = 0 then none
    else
      some ⟨(jsRound ((acc.totalR : ℚ) / acc.validPixels)).toNat,
            (jsRound ((acc.totalG : ℚ) / acc.validPixels)).toNat,
            (jsRound ((acc.totalB : ℚ) / acc.validPixels)).toNat,
            (jsRound ((acc.totalA : ℚ) / acc.validPixels)).toNat⟩

/-- A bucket of the `colorCounts` histogram map of
`extractDominantColors`: quantized key, the stored (first-seen) color, and
the running count. -/
structure DomEntry where
  quantized : ℕ × ℕ × ℕ
  color : ColorResult
  count : ℕ
deriving DecidableEq, Repr

/-- `Map` update of the histogram: increment the existing bucket in place
(preserving insertion order) or append a fresh bucket with count 1. -/
def bumpEntry : List DomEntry → ℕ × ℕ × ℕ → ColorResult → List DomEntry
  | [], key, color => [⟨key, color, 1⟩]
  | e :: rest, key, color =>
    if e.quantized = key then ⟨e.quantized, e.color, e.count + 1⟩ :: rest
    else e :: bumpEntry rest key color

/-- Descending-count comparison used to rank histogram buckets
(`.sort((a, b) => b.count - a.count)`). -/
def countGE (a b : DomEntry) : Prop := b.count ≤ a.count

instance : DecidableRel countGE :=
  fun a b => inferInstanceAs (Decidable (b.count ≤ a.count))

/-- The sampling/tally loop of `extractDominantColors`: indices
`0, step, 2·step, …  < width*height` with `step = max(1, sampleRate)`;
the loop `break`s at the first index past the pixel buffer (modelled by
`takeWhile`, which stops at the first failing index exactly as `break`
does); pixels with alpha < 128 are skipped; channels are quantized to
32-wide buckets `floor(c/32)*32`. -/
def dominantEntries (d : PixelData) (sampleRate : ℕ) : List DomEntry :=
  let totalPixels := d.width * d.height
  let step := max 1 sampleRate
  let indices := ((List.range ((totalPixels + step - 1) / step)).map (fun k => k * step)).takeWhile
    (fun i => 4 * i + 3 < d.pixels.length)
  indices.foldl (fun entries i =>
    let pixelIndex := 4 * i
    let r := d.pixels.getD pixelIndex 0
    let g := d.pixels.getD (pixelIndex + 1) 0
    let b := d.pixels.getD (pixelIndex + 2) 0
    let a := d.pixels.getD (pixelIndex + 3) 0
    if a < 128 then entries
    else
      let quantizedR := r / 32 * 32
      let quantizedG := g / 32 * 32
      let quantizedB := b / 32 * 32
      bumpEntry entries (quantizedR, quantizedG, quantizedB)
        ⟨quantizedR, quantizedG, quantizedB, a⟩) []

/-- `extractDominantColors`: histogram of quantized sampled colors, stably
sorted by descending count (JavaScript's `Array.prototype.sort` is stable,
as is insertion sort), truncated to `maxColors`, counts dropped. -/
def extractDominantColors (imageData : Option PixelData)
    (maxColors : ℕ := 5) (sampleRate : ℕ := 4) : List ColorResult :=
  match imageData with
  | none => []
  | some d =>
    ((((dominantEntries d sampleRate).insertionSort countGE).take maxColors).map (·.color))

/-- `MAX_CACHE_SIZE` of `SkiaColorExtractor`. -/
def MAX_CACHE_SIZE : ℕ := 10

/-- The two static caches (`imageCache`, `pixelCache`), each a `Map`
modelled as an association list in insertion order. -/
structure CacheState (Img Pix : Type) where
  imageCache : List (String × Img)
  pixelCache : List (String × Pix)

/-- `loadSkiaImage`, with the file read + decode pipeline
(`readAsStringAsync`, `Skia.Data.fromBase64`, `MakeImageFromEncoded`,
including its exceptions, which the source catches and turns into `null`)
abstracted as `decode : String → Option Img`.
On a cache hit the cached image is returned and the state is untouched.
On a miss: if the cache is at capacity the first-inserted key is evicted
from both caches — but only when that key is truthy, i.e. not the empty
string — then the decoded image (if any) is inserted at the end. -/
def loadSkiaImage (decode : String → Option Img) (st : CacheState Img Pix)
    (imageUri : String) : Option Img × CacheState Img Pix :=
  match List.lookup imageUri st.imageCache with
  | some cachedImage => (some cachedImage, st)
  | none =>
    let st1 : CacheState Img Pix :=
      if MAX_CACHE_SIZE ≤ st.imageCache.length then
        match st.imageCache with
        | (firstKey, _) :: rest =>
          if firstKey ≠ "" then
            ⟨rest, st.pixelCache.eraseP (fun p => p.1 = firstKey)⟩
          else st
        | [] => st
      else st
    match decode imageUri with
    | some image =>
      (some image, { st1 with imageCache := st1.imageCache ++ [(imageUri, image)] })
    | none => (none, st1)

/-- A sequence of `loadSkiaImage` calls starting from the empty caches. -/
def loadSeq (decode : String → Option Img) (uris : List String) :
    CacheState Img Pix :=
  uris.foldl (fun st u => (loadSkiaImage decode st u).2) ⟨[], []⟩

end SkiaColorExtractor

namespace SkiaColorExtractor

instance : IsTotal DomEntry countGE := ⟨fun a b => le_total b.count a.count⟩

instance : IsTrans DomEntry countGE := ⟨fun _ _ _ h1 h2 => le_trans h2 h1⟩

/-- A 10×10 buffer of all-red `(255,0,0,255)` pixels. -/
def redBuffer10x10 : PixelData := ⟨(List.replicate 100 [255, 0, 0, 255]).flatten, 10, 10⟩

/-- A 1×1 buffer holding the single pixel `(10,20,30,255)`. -/
def pixel1x1 : PixelData := ⟨[10, 20, 30, 255], 1, 1⟩

/-- A concrete decode oracle for witnesses: every non-empty URI decodes
(the empty URI never decodes, as an empty path cannot be read). -/
def demoDecode : String → Option ℕ := fun u => if u = "" then none else some 1

end SkiaColorExtractor

namespace LibraryStorage

/-- Clamp to `[0,1]`. -/
def clamp01 (x : ℚ) : ℚ := min 1 (max 0 x)

/-- Closed form of the coefficient computed by `hueToRgb`:
on `[-1/3, 4/3]` (the range of the three phase-shifted hue arguments),
`hueToRgb p q t = p + (q - p) * phiHue t`. -/
def phiHue (t : ℚ) : ℚ := clamp01 (max (min (6 * t) (4 - 6 * t)) (6 * t - 6))

end LibraryStorage

/-! ## Theorems -/

section C3
/-! ### C3: malformed hex handling in the namer vs the converter -/

/-- C3 (counterexample): `"zzzzzz"` fails the namer's strict hex regex, yet
the converter's `hexToRgb` does not coerce it to `(0,0,0)` — `parseInt`
yields `NaN` (`none`) channels instead. -/
theorem c3_counterexample :
    Library.strictHexMatch "zzzzzz" = none ∧
    LibraryStorage.hexToRgb "zzzzzz" ≠
      LibraryStorage.RGBj.mk (some 0) (some 0) (some 0) := by
  refine ⟨by decide, ?_⟩
  intro h
  have := congrArg LibraryStorage.RGBj.r h
  simp only [show (LibraryStorage.hexToRgb "zzzzzz").r = none from by decide] at this
  cases this

/-- C3 (amended): every string that fails the strict hex regex is silently
coerced to RGB `(0,0,0)` by the namer's parser; the converter's `hexToRgb`,
by contrast, performs no validation and produces `NaN` (`none`) channels on
non-hex text such as `"zzzzzz"` rather than `(0,0,0)`. -/
theorem c3_amended :
    (∀ s, Library.strictHexMatch s = none →
      Library.hexToRgb s = Library.RGBn.mk 0 0 0) ∧
    LibraryStorage.hexToRgb "zzzzzz" =
      LibraryStorage.RGBj.mk none none none := by
  refine ⟨fun s h => ?_, by decide⟩
  unfold Library.hexToRgb
  rw [h]

/-- Witness for `c3_amended` at the concrete malformed input `"#junk!"`. -/
theorem c3_amended_witness :
    Library.strictHexMatch "#junk!" = none ∧
    Library.hexToRgb "#junk!" = Library.RGBn.mk 0 0 0 :=
  ⟨by decide, c3_amended.1 "#junk!" (by decide)⟩

end C3

section C9
/-! ### C9: `"lab"` as a source format always throws -/

/-- C9: the `switch (fromFormat)` of `convertColor` has no `"lab"` case, so
`"lab"` as a source format always falls into the unsupported-format branch,
for every color value and every target format — even though `"lab"` is one
of the recognized format tags and is accepted as a target format. -/
theorem c9_lab_source_always_throws :
    (∀ (powGamma powCbrt : ℚ → ℚ) (color : LibraryStorage.ColorValue) (toFormat : String),
      LibraryStorage.convertColor powGamma powCbrt color "lab" toFormat =
        Except.error "Unsupported format conversion from: lab") ∧
    "lab" ∈ LibraryStorage.recognizedFormats ∧
    (∀ (powGamma powCbrt : ℚ → ℚ) (v : LibraryStorage.RGBj),
      LibraryStorage.convertColor powGamma powCbrt (.rgb v) "rgb" "lab" =
        Except.ok (.lab (LibraryStorage.rgbToLabJ powGamma powCbrt v))) := by
  refine ⟨fun powGamma powCbrt color toFormat => ?_, by decide,
    fun powGamma powCbrt v => ?_⟩
  · with_unfolding_all rfl
  · with_unfolding_all rfl

end C9

section C8
/-! ### C8: unrecognized format tags throw -/

/-- C8: `convertColor` throws an unsupported-format error whenever
`fromFormat` or `toFormat` is not a recognized tag; in particular
`convertColor(color, "rgb", "zzz")` errors for every color value.  (For the
general statement, when `fromFormat = "hex"` the color is assumed to be a
string: on a non-string the source would instead die with a `TypeError`
inside `hexToRgb`, a different error.) -/
theorem c8_unsupported_format_throws :
    (∀ (powGamma powCbrt : ℚ → ℚ) (color : LibraryStorage.ColorValue),
      LibraryStorage.convertColor powGamma powCbrt color "rgb" "zzz" =
        Except.error "Unsupported format conversion to: zzz") ∧
    (∀ (powGamma powCbrt : ℚ → ℚ) (color : LibraryStorage.ColorValue)
      (fromFormat toFormat : String),
      fromFormat ∉ LibraryStorage.recognizedFormats ∨
        toFormat ∉ LibraryStorage.recognizedFormats →
      (fromFormat = "hex" → ∃ s, color = .str s) →
      ∃ msg, LibraryStorage.convertColor powGamma powCbrt color fromFormat toFormat =
        Except.error msg) := by
  constructor
  · intro powGamma powCbrt color
    with_unfolding_all rfl
  · intro powGamma powCbrt color fromFormat toFormat h _
    rcases h with hf | ht
    · obtain ⟨h1, h2, h3, h4, h5, h6, h7, h8⟩ :
          fromFormat ≠ "rgb" ∧ fromFormat ≠ "hsl" ∧ fromFormat ≠ "hsv" ∧
          fromFormat ≠ "cmyk" ∧ fromFormat ≠ "yuv" ∧ fromFormat ≠ "lab" ∧
          fromFormat ≠ "ryb" ∧ fromFormat ≠ "hex" := by
        simpa [LibraryStorage.recognizedFormats, not_or] using hf
      exact ⟨"Unsupported format conversion from: " ++ fromFormat,
        by simp [LibraryStorage.convertColor, h1, h2, h3, h4, h5, h6, h7, h8]⟩
    · obtain ⟨t1, t2, t3, t4, t5, t6, t7, t8⟩ :
          toFormat ≠ "rgb" ∧ toFormat ≠ "hsl" ∧ toFormat ≠ "hsv" ∧
          toFormat ≠ "cmyk" ∧ toFormat ≠ "yuv" ∧ toFormat ≠ "lab" ∧
          toFormat ≠ "ryb" ∧ toFormat ≠ "hex" := by
        simpa [LibraryStorage.recognizedFormats, not_or] using ht
      by_cases f1 : fromFormat = "rgb"
      · exact ⟨"Unsupported format conversion to: " ++ toFormat,
          by simp [LibraryStorage.convertColor, f1, t1, t2, t3, t4, t5, t6, t7, t8]⟩
      by_cases f2 : fromFormat = "hex"
      · exact ⟨"Unsupported format conversion to: " ++ toFormat,
          by simp [LibraryStorage.convertColor, f1, f2, t1, t2, t3, t4, t5, t6, t7, t8]⟩
      by_cases f3 : fromFormat = "hsl"
      · exact ⟨"Unsupported format conversion to: " ++ toFormat,
          by simp [LibraryStorage.convertColor, f1, f2, f3, t1, t2, t3, t4, t5, t6, t7, t8]⟩
      by_cases f4 : fromFormat = "hsv"
      · exact ⟨"Unsupported format conversion to: " ++ toFormat,
          by simp [LibraryStorage.convertColor, f1, f2, f3, f4, t1, t2, t3, t4, t5, t6, t7, t8]⟩
      by_cases f5 : fromFormat = "cmyk"
      · exact ⟨"Unsupported format conversion to: " ++ toFormat,
          by simp [LibraryStorage.convertColor, f1, f2, f3, f4, f5, t1, t2, t3, t4, t5, t6, t7, t8]⟩
      by_cases f6 : fromFormat = "yuv"
      · exact ⟨"Unsupported format conversion to: " ++ toFormat,
          by simp [LibraryStorage.convertColor, f1, f2, f3, f4, f5, f6, t1, t2, t3, t4, t5, t6, t7, t8]⟩
      by_cases f7 : fromFormat = "ryb"
      · exact ⟨"Unsupported format conversion to: " ++ toFormat,
          by simp [LibraryStorage.convertColor, f1, f2, f3, f4, f5, f6, f7,
            t1, t2, t3, t4, t5, t6, t7, t8]⟩
      exact ⟨"Unsupported format conversion from: " ++ fromFormat,
        by simp [LibraryStorage.convertColor, f1, f2, f3, f4, f5, f6, f7]⟩

/-- Witness for `c8_unsupported_format_throws` at a concrete color and the
unrecognized target tag `"zzz"`. -/
theorem c8_unsupported_format_throws_witness :
    ("zzz" ∉ LibraryStorage.recognizedFormats) ∧
    ∃ msg, LibraryStorage.convertColor id id
      (.rgb (LibraryStorage.RGBj.mk (some 1) (some 2) (some 3))) "rgb" "zzz" =
        Except.error msg :=
  ⟨by decide, c8_unsupported_format_throws.2 id id _ "rgb" "zzz"
    (Or.inr (by decide)) (fun h => absurd h (by decide))⟩

end C8

section C5
/-! ### C5: hex encoding round-trips losslessly -/

set_option maxRecDepth 4000 in
/-- For channel values in `0..255` the padded hex rendering has two digits
and `parseInt(_, 16)` recovers the value exactly. -/
lemma toHex2_spec (n : ℕ) (h : n ≤ 255) :
    (LibraryStorage.toHex2 n).length = 2 ∧
    LibraryStorage.parseIntHex (LibraryStorage.toHex2 n) = some (n : ℤ) := by
  have key : ∀ m : Fin 256,
      (LibraryStorage.toHex2 m.val).length = 2 ∧
      LibraryStorage.parseIntHex (LibraryStorage.toHex2 m.val) = some (m.val : ℤ) := by decide
  exact key ⟨n, by omega⟩

/-- `Math.round` is the identity on (casts of) integers. -/
lemma jsRound_intCast (z : ℤ) : jsRound (z : ℚ) = z := by
  unfold jsRound
  rw [add_comm, Int.floor_add_int]
  norm_num

/-- `Math.round` is the identity on (casts of) naturals. -/
lemma jsRound_natCast (n : ℕ) : jsRound (n : ℚ) = n := by
  have h := jsRound_intCast (n : ℤ)
  rw [Int.cast_natCast] at h
  exact h

/-- On an in-range integer channel, the clamp in `rgbToHex` is the
identity. -/
lemma hexChannel_natCast (n : ℕ) (h : n ≤ 255) :
    LibraryStorage.hexChannel (n : ℚ) = LibraryStorage.toHex2 n := by
  unfold LibraryStorage.hexChannel
  rw [jsRound_natCast]
  have h1 : min (255 : ℤ) (n : ℤ) = (n : ℤ) := min_eq_right (by exact_mod_cast h)
  have h2 : max (0 : ℤ) (n : ℤ) = (n : ℤ) := max_eq_right (by positivity)
  rw [h1, h2]
  congr 1

/-- `hexToRgb` on a `#` plus six explicit characters parses the three
two-character groups. -/
lemma hexToRgb_data7 (c1 c2 c3 c4 c5 c6 : Char) :
    LibraryStorage.hexToRgb ⟨['#', c1, c2, c3, c4, c5, c6]⟩ =
      ⟨(LibraryStorage.parseIntHex [c1, c2]).map (fun z => (z : ℚ)),
       (LibraryStorage.parseIntHex [c3, c4]).map (fun z => (z : ℚ)),
       (LibraryStorage.parseIntHex [c5, c6]).map (fun z => (z : ℚ))⟩ := rfl

/-- C5: for every RGB triple of integers in `[0,255]`,
`hexToRgb(rgbToHex(r,g,b))` returns exactly `(r,g,b)`. -/
theorem c5_hex_roundtrip (r g b : ℕ) (hr : r ≤ 255) (hg : g ≤ 255) (hb : b ≤ 255) :
    LibraryStorage.hexToRgb (LibraryStorage.rgbToHex r g b) =
      LibraryStorage.RGBj.mk (some r) (some g) (some b) := by
  obtain ⟨lr, pr⟩ := toHex2_spec r hr
  obtain ⟨lg, pg⟩ := toHex2_spec g hg
  obtain ⟨lb, pb⟩ := toHex2_spec b hb
  obtain ⟨a1, a2, ha⟩ := List.length_eq_two.mp lr
  obtain ⟨b1, b2, hbb⟩ := List.length_eq_two.mp lg
  obtain ⟨d1, d2, hd⟩ := List.length_eq_two.mp lb
  have hhex : LibraryStorage.rgbToHex r g b = ⟨['#', a1, a2, b1, b2, d1, d2]⟩ := by
    unfold LibraryStorage.rgbToHex
    rw [hexChannel_natCast r hr, hexChannel_natCast g hg, hexChannel_natCast b hb, ha, hbb, hd]
    rfl
  rw [hhex, hexToRgb_data7, ← ha, ← hbb, ← hd, pr, pg, pb]
  simp

/-- Witness for `c5_hex_roundtrip` at the triple `(17, 252, 3)`. -/
theorem c5_hex_roundtrip_witness :
    (17 ≤ 255 ∧ 252 ≤ 255 ∧ 3 ≤ 255) ∧
    LibraryStorage.hexToRgb (LibraryStorage.rgbToHex ((17 : ℕ) : ℚ) ((252 : ℕ) : ℚ) ((3 : ℕ) : ℚ)) =
      LibraryStorage.RGBj.mk (some ((17 : ℕ) : ℚ)) (some ((252 : ℕ) : ℚ)) (some ((3 : ℕ) : ℚ)) :=
  ⟨by decide, c5_hex_roundtrip 17 252 3 (by decide) (by decide) (by decide)⟩

end C5

section C10
/-! ### C10: 3-digit shorthand is rejected by the namer's parser -/

/-- C10: the namer's parser accepts only 6-hex-digit bodies, so any 3-digit
shorthand (with or without `#`) is coerced to `(0,0,0)` and every such
input is named like black — e.g. `findNearestColorName "#F00" "en"` is
`"Black"`, not `"Red"` — while the converter's `hexToRgb` expands the same
shorthand by digit duplication. -/
theorem c10_shorthand_named_black :
    (∀ c1 c2 c3 : Char,
      Library.hexToRgb ⟨['#', c1, c2, c3]⟩ = Library.RGBn.mk 0 0 0 ∧
      Library.hexToRgb ⟨[c1, c2, c3]⟩ = Library.RGBn.mk 0 0 0) ∧
    (∀ (c1 c2 c3 : Char) (language : String),
      Library.findNearestColorName ⟨['#', c1, c2, c3]⟩ language =
        Library.findNearestColorName "#000000" language) ∧
    Library.findNearestColorName "#F00" "en" = "Black" ∧
    Library.findNearestColorName "#F00" "en" ≠ "Red" ∧
    LibraryStorage.hexToRgb "#F00" =
      LibraryStorage.RGBj.mk (some 255) (some 0) (some 0) := by
  have hshort : ∀ c1 c2 c3 : Char,
      Library.hexToRgb ⟨['#', c1, c2, c3]⟩ = Library.RGBn.mk 0 0 0 ∧
      Library.hexToRgb ⟨[c1, c2, c3]⟩ = Library.RGBn.mk 0 0 0 := by
    intro c1 c2 c3
    constructor
    · rfl
    · unfold Library.hexToRgb Library.strictHexMatch
      dsimp only
      split
      · next g1 g2 g3 heq =>
          split at heq
          · rename_i a1 a2 a3 a4 a5 a6 heq6
            split at heq6 <;> simp_all
          · simp_all
      · rfl
  refine ⟨hshort, fun c1 c2 c3 language => ?_, by decide, by decide, by decide⟩
  unfold Library.findNearestColorName
  rw [show Library.hexToRgb ⟨['#', c1, c2, c3]⟩ = Library.RGBn.mk 0 0 0 from (hshort c1 c2 c3).1,
    show Library.hexToRgb "#000000" = Library.RGBn.mk 0 0 0 from by decide]

/-- Witness for `c10_shorthand_named_black` at the shorthand `"#F00"`. -/
theorem c10_shorthand_named_black_witness :
    Library.hexToRgb "#F00" = Library.RGBn.mk 0 0 0 ∧
    Library.findNearestColorName "#F00" "vi" = Library.findNearestColorName "#000000" "vi" := by
  constructor
  · exact (c10_shorthand_named_black.1 'F' '0' '0').1
  · exact c10_shorthand_named_black.2.1 'F' '0' '0' "vi"

end C10

section C7
/-! ### C7: nearest color name, first minimum wins -/

/-- One unfolding step of the scan loop on a cons cell with a finite
current minimum. -/
lemma findLoop_cons_some (target : Library.RGBn) (c0 : Library.NamedColor)
    (rest : List Library.NamedColor) (best : Library.NamedColor) (d : ℤ) :
    Library.findLoop target (c0 :: rest) best (some d) =
      if Library.colorDistance target (Library.hexToRgb c0.hex) < d then
        Library.findLoop target rest c0
          (some (Library.colorDistance target (Library.hexToRgb c0.hex)))
      else Library.findLoop target rest best (some d) := rfl

/-- One unfolding step of the scan loop on a cons cell with the initial
infinite minimum. -/
lemma findLoop_cons_none (target : Library.RGBn) (c0 : Library.NamedColor)
    (rest : List Library.NamedColor) (best : Library.NamedColor) :
    Library.findLoop target (c0 :: rest) best none =
      Library.findLoop target rest c0
        (some (Library.colorDistance target (Library.hexToRgb c0.hex))) := rfl

/-- Characterisation of the scan loop of `findNearestColorName` once a
finite current-best distance `d` is installed: either no entry of `l`
strictly improves on `d` and the current best survives, or the result is
the earliest entry of `l` attaining the (strictly improving) minimum. -/
lemma findLoop_spec (target : Library.RGBn) :
    ∀ (l : List Library.NamedColor) (best : Library.NamedColor) (d : ℤ),
      (Library.findLoop target l best (some d) = best ∧
        ∀ x ∈ l, d ≤ Library.colorDistance target (Library.hexToRgb x.hex)) ∨
      (∃ pre c post, l = pre ++ c :: post ∧
        Library.findLoop target l best (some d) = c ∧
        Library.colorDistance target (Library.hexToRgb c.hex) < d ∧
        (∀ x ∈ l, Library.colorDistance target (Library.hexToRgb c.hex) ≤
          Library.colorDistance target (Library.hexToRgb x.hex)) ∧
        (∀ x ∈ pre, Library.colorDistance target (Library.hexToRgb c.hex) <
          Library.colorDistance target (Library.hexToRgb x.hex))) := by
  intro l
  induction l with
  | nil =>
    intro best d
    exact Or.inl ⟨rfl, by simp⟩
  | cons c0 rest ih =>
    intro best d
    by_cases hlt : Library.colorDistance target (Library.hexToRgb c0.hex) < d
    · have hstep : Library.findLoop target (c0 :: rest) best (some d) =
          Library.findLoop target rest c0
            (some (Library.colorDistance target (Library.hexToRgb c0.hex))) := by
        rw [findLoop_cons_some, if_pos hlt]
      rcases ih c0 (Library.colorDistance target (Library.hexToRgb c0.hex)) with
        ⟨hres, hall⟩ | ⟨pre, c, post, hsplit, hres, hclt, hcle, hcpre⟩
      · refine Or.inr ⟨[], c0, rest, by simp, by rw [hstep]; exact hres, hlt, ?_, by simp⟩
        intro x hx
        rcases List.mem_cons.mp hx with hx | hx
        · subst hx; exact le_refl _
        · exact hall x hx
      · refine Or.inr ⟨c0 :: pre, c, post, by rw [hsplit]; rfl,
          by rw [hstep]; exact hres, lt_trans hclt hlt, ?_, ?_⟩
        · intro x hx
          rcases List.mem_cons.mp hx with hx | hx
          · subst hx; exact le_of_lt hclt
          · exact hcle x hx
        · intro x hx
          rcases List.mem_cons.mp hx with hx | hx
          · subst hx; exact hclt
          · exact hcpre x hx
    · have hstep : Library.findLoop target (c0 :: rest) best (some d) =
          Library.findLoop target rest best (some d) := by
        rw [findLoop_cons_some, if_neg hlt]
      rcases ih best d with ⟨hres, hall⟩ | ⟨pre, c, post, hsplit, hres, hclt, hcle, hcpre⟩
      · refine Or.inl ⟨by rw [hstep]; exact hres, ?_⟩
        intro x hx
        rcases List.mem_cons.mp hx with hx | hx
        · subst hx; exact not_lt.mp hlt
        · exact hall x hx
      · refine Or.inr ⟨c0 :: pre, c, post, by rw [hsplit]; rfl,
          by rw [hstep]; exact hres, hclt, ?_, ?_⟩
        · intro x hx
          rcases List.mem_cons.mp hx with hx | hx
          · subst hx; exact le_of_lt (lt_of_lt_of_le hclt (not_lt.mp hlt))
          · exact hcle x hx
        · intro x hx
          rcases List.mem_cons.mp hx with hx | hx
          · subst hx; exact lt_of_lt_of_le hclt (not_lt.mp hlt)
          · exact hcpre x hx

/-- On a non-empty table, the loop started with `minDistance = Infinity`
returns the earliest entry attaining the minimal distance. -/
lemma findLoop_none_spec (target : Library.RGBn) (c0 : Library.NamedColor)
    (rest : List Library.NamedColor) (best : Library.NamedColor) :
    ∃ pre c post, c0 :: rest = pre ++ c :: post ∧
      Library.findLoop target (c0 :: rest) best none = c ∧
      (∀ x ∈ c0 :: rest, Library.colorDistance target (Library.hexToRgb c.hex) ≤
        Library.colorDistance target (Library.hexToRgb x.hex)) ∧
      (∀ x ∈ pre, Library.colorDistance target (Library.hexToRgb c.hex) <
        Library.colorDistance target (Library.hexToRgb x.hex)) := by
  have hstep : Library.findLoop target (c0 :: rest) best none =
      Library.findLoop target rest c0
        (some (Library.colorDistance target (Library.hexToRgb c0.hex))) :=
    findLoop_cons_none target c0 rest best
  rcases findLoop_spec target rest c0 (Library.colorDistance target (Library.hexToRgb c0.hex)) with
    ⟨hres, hall⟩ | ⟨pre, c, post, hsplit, hres, hclt, hcle, hcpre⟩
  · refine ⟨[], c0, rest, by simp, by rw [hstep]; exact hres, ?_, by simp⟩
    intro x hx
    rcases List.mem_cons.mp hx with hx | hx
    · subst hx; exact le_refl _
    · exact hall x hx
  · refine ⟨c0 :: pre, c, post, by rw [hsplit]; rfl, by rw [hstep]; exact hres, ?_, ?_⟩
    · intro x hx
      rcases List.mem_cons.mp hx with hx | hx
      · subst hx; exact le_of_lt hclt
      · exact hcle x hx
    · intro x hx
      rcases List.mem_cons.mp hx with hx | hx
      · subst hx; exact hclt
      · exact hcpre x hx

/-- C7: `findNearestColorName` returns the name, in the requested language,
of the earliest table entry at minimal Euclidean RGB distance from the
input (a linear scan that only replaces on strictly smaller distance), and
in particular names both `#000000` and `#010101` `"Black"`. -/
theorem c7_nearest_name_first_min :
    (∀ (hexColor language : String),
      ∃ pre c post, Library.colorList = pre ++ c :: post ∧
        Library.findNearestColorName hexColor language = Library.nameOf c language ∧
        (∀ x ∈ Library.colorList,
          Library.colorDistance (Library.hexToRgb hexColor) (Library.hexToRgb c.hex) ≤
            Library.colorDistance (Library.hexToRgb hexColor) (Library.hexToRgb x.hex)) ∧
        (∀ x ∈ pre,
          Library.colorDistance (Library.hexToRgb hexColor) (Library.hexToRgb c.hex) <
            Library.colorDistance (Library.hexToRgb hexColor) (Library.hexToRgb x.hex))) ∧
    Library.findNearestColorName "#000000" "en" = "Black" ∧
    Library.findNearestColorName "#010101" "en" = "Black" := by
  refine ⟨fun hexColor language => ?_, by decide, by decide⟩
  obtain ⟨c0, rest, hlist⟩ :
      ∃ c0 rest, Library.colorList = c0 :: rest := ⟨_, _, rfl⟩
  obtain ⟨pre, c, post, hsplit, hres, hle, hpre⟩ :=
    findLoop_none_spec (Library.hexToRgb hexColor) c0 rest (Library.colorList.headI)
  refine ⟨pre, c, post, by rw [hlist]; exact hsplit, ?_, ?_, ?_⟩
  · unfold Library.findNearestColorName
    rw [hlist]
    exact congrArg (fun cc => Library.nameOf cc language) hres
  · intro x hx
    exact hle x (by rw [← hlist]; exact hx)
  · exact hpre

end C7

section C2
/-! ### C2: out-of-bounds sampling -/

/-- Folding a function that ignores its list argument leaves the
accumulator unchanged. -/
lemma foldl_skip {α β : Type} (l : List α) (init : β) :
    List.foldl (fun a _ => a) init l = init := by
  induction l generalizing init with
  | nil => rfl
  | cons x xs ih => exact ih init

/-- If the clipped x-range is empty, the region accumulator stays at
zero. -/
lemma regionAccOf_empty_xs (d : SkiaColorExtractor.PixelData) (cx cy r : ℤ)
    (h : SkiaColorExtractor.regionXs d cx r = []) :
    SkiaColorExtractor.regionAccOf d cx cy r = ⟨0, 0, 0, 0, 0⟩ := by
  unfold SkiaColorExtractor.regionAccOf
  rw [h]
  rfl

/-- If the clipped y-range is empty, the region accumulator stays at
zero. -/
lemma regionAccOf_empty_ys (d : SkiaColorExtractor.PixelData) (cx cy r : ℤ)
    (h : SkiaColorExtractor.regionYs d cy r = []) :
    SkiaColorExtractor.regionAccOf d cx cy r = ⟨0, 0, 0, 0, 0⟩ := by
  unfold SkiaColorExtractor.regionAccOf
  rw [h]
  exact foldl_skip _ _

/-- An integer interval list is empty when its upper end lies below its
lower end. -/
lemma range_list_empty (a b : ℤ) (h : b + 1 ≤ a) :
    (List.range (b + 1 - a).toNat).map (fun i => a + i) = [] := by
  rw [show (b + 1 - a).toNat = 0 from by omega]
  rfl

/-- C2 (counterexample): on a 1×1 buffer, region averaging at the
out-of-bounds center `x = 1 ≥ width` still returns a color — the clipped
sample square salvages the in-bounds pixels, so not every sampler
operation returns NotFound for out-of-bounds coordinates. -/
theorem c2_counterexample :
    (1 : ℤ) ≥ (SkiaColorExtractor.pixel1x1.width : ℤ) ∧
    SkiaColorExtractor.extractRegionAverageColor
      (some SkiaColorExtractor.pixel1x1) 1 0 2 =
      some (SkiaColorExtractor.ColorResult.mk 10 20 30 255) := by
  constructor
  · with_unfolding_all decide
  · with_unfolding_all rfl

/-- C2 (amended): point sampling (`getColorAtPixel`, and with it center
sampling) returns NotFound for every out-of-bounds coordinate; region
averaging clips the sample square `[center − radius, center + radius]` to
the buffer and returns NotFound only when the clipped square is empty —
in particular whenever the center is more than `radius` outside the
bounds — but can return a color for out-of-bounds centers within `radius`
of the edge. -/
theorem c2_amended :
    (∀ (d : SkiaColorExtractor.PixelData) (x y : ℤ),
      x < 0 ∨ x ≥ (d.width : ℤ) ∨ y < 0 ∨ y ≥ (d.height : ℤ) →
      SkiaColorExtractor.getColorAtPixel (some d) x y = none) ∧
    (∀ (d : SkiaColorExtractor.PixelData) (cx cy r : ℤ),
      (d.width : ℤ) - 1 + r < cx ∨ cx + r < 0 ∨
        (d.height : ℤ) - 1 + r < cy ∨ cy + r < 0 →
      SkiaColorExtractor.extractRegionAverageColor (some d) cx cy r = none) ∧
    (∀ d : SkiaColorExtractor.PixelData, d.width = 0 ∨ d.height = 0 →
      SkiaColorExtractor.extractCenterColor (some d) = none) := by
  refine ⟨fun d x y h => ?_, fun d cx cy r h => ?_, fun d h => ?_⟩
  · unfold SkiaColorExtractor.getColorAtPixel
    dsimp only
    rw [if_pos h]
  · have hacc : SkiaColorExtractor.regionAccOf d cx cy r =
        SkiaColorExtractor.RegionAcc.mk 0 0 0 0 0 := by
      rcases h with h | h | h | h
      · refine regionAccOf_empty_xs d cx cy r ?_
        unfold SkiaColorExtractor.regionXs
        exact range_list_empty _ _ (by
          have h1 : min ((d.width : ℤ) - 1) (cx + r) ≤ (d.width : ℤ) - 1 := min_le_left _ _
          have h2 : cx - r ≤ max 0 (cx - r) := le_max_right _ _
          omega)
      · refine regionAccOf_empty_xs d cx cy r ?_
        unfold SkiaColorExtractor.regionXs
        exact range_list_empty _ _ (by
          have h1 : min ((d.width : ℤ) - 1) (cx + r) ≤ cx + r := min_le_right _ _
          have h2 : (0 : ℤ) ≤ max 0 (cx - r) := le_max_left _ _
          omega)
      · refine regionAccOf_empty_ys d cx cy r ?_
        unfold SkiaColorExtractor.regionYs
        exact range_list_empty _ _ (by
          have h1 : min ((d.height : ℤ) - 1) (cy + r) ≤ (d.height : ℤ) - 1 := min_le_left _ _
          have h2 : cy - r ≤ max 0 (cy - r) := le_max_right _ _
          omega)
      · refine regionAccOf_empty_ys d cx cy r ?_
        unfold SkiaColorExtractor.regionYs
        exact range_list_empty _ _ (by
          have h1 : min ((d.height : ℤ) - 1) (cy + r) ≤ cy + r := min_le_right _ _
          have h2 : (0 : ℤ) ≤ max 0 (cy - r) := le_max_left _ _
          omega)
    unfold SkiaColorExtractor.extractRegionAverageColor
    dsimp only
    rw [hacc]
    rfl
  · have hcond : ((d.width / 2 : ℕ) : ℤ) < 0 ∨ ((d.width / 2 : ℕ) : ℤ) ≥ (d.width : ℤ) ∨
        ((d.height / 2 : ℕ) : ℤ) < 0 ∨ ((d.height / 2 : ℕ) : ℤ) ≥ (d.height : ℤ) := by
      rcases h with h | h
      · right; left; rw [h]
      · right; right; right; rw [h]
    unfold SkiaColorExtractor.extractCenterColor SkiaColorExtractor.getColorAtPixel
    dsimp only
    rw [if_pos hcond]

/-- Witness for `c2_amended` at concrete out-of-bounds inputs on the 1×1
buffer. -/
theorem c2_amended_witness :
    SkiaColorExtractor.getColorAtPixel (some SkiaColorExtractor.pixel1x1) 1 0 = none ∧
    SkiaColorExtractor.extractRegionAverageColor
      (some SkiaColorExtractor.pixel1x1) 9 0 2 = none ∧
    SkiaColorExtractor.extractCenterColor
      (some (SkiaColorExtractor.PixelData.mk [] 0 0)) = none :=
  ⟨c2_amended.1 SkiaColorExtractor.pixel1x1 1 0 (by right; left; with_unfolding_all decide),
   c2_amended.2.1 SkiaColorExtractor.pixel1x1 9 0 2 (by left; with_unfolding_all decide),
   c2_amended.2.2 _ (by left; rfl)⟩

end C2

section C6
/-! ### C6: dominant color extraction -/

set_option maxRecDepth 100000 in
/-- C6: `extractDominantColors` samples at the caller-chosen stride, skips
alpha < 128, quantizes channels to 32-wide buckets, and returns at most
`maxColors` colors ranked by descending bucket count; on the all-red 10×10
buffer with `maxColors = 1` it returns exactly one color, whose quantized
red component `224 = floor(255/32)*32` is at least 224. -/
theorem c6_dominant_colors :
    (∀ (imageData : Option SkiaColorExtractor.PixelData) (maxColors sampleRate : ℕ),
      (SkiaColorExtractor.extractDominantColors imageData maxColors sampleRate).length ≤
        maxColors) ∧
    (∀ (d : SkiaColorExtractor.PixelData) (sampleRate : ℕ),
      List.Sorted SkiaColorExtractor.countGE
        ((SkiaColorExtractor.dominantEntries d sampleRate).insertionSort
          SkiaColorExtractor.countGE)) ∧
    SkiaColorExtractor.extractDominantColors (some SkiaColorExtractor.redBuffer10x10) 1 4 =
      [SkiaColorExtractor.ColorResult.mk 224 0 0 255] ∧
    (∀ c ∈ SkiaColorExtractor.extractDominantColors
        (some SkiaColorExtractor.redBuffer10x10) 1 4, 224 ≤ c.r) := by
  have hred : SkiaColorExtractor.extractDominantColors
      (some SkiaColorExtractor.redBuffer10x10) 1 4 =
      [SkiaColorExtractor.ColorResult.mk 224 0 0 255] := by
    with_unfolding_all rfl
  refine ⟨fun imageData maxColors sampleRate => ?_,
    fun d sampleRate => List.sorted_insertionSort _ _, hred, ?_⟩
  · match imageData with
    | none => simp [SkiaColorExtractor.extractDominantColors]
    | some d =>
      unfold SkiaColorExtractor.extractDominantColors
      simp [List.length_take]
  · rw [hred]
    intro c hc
    simp only [List.mem_singleton] at hc
    subst hc
    decide

end C6

section C1
/-! ### C1: bounded FIFO image cache -/

variable {Img Pix : Type}

lemma lookup_eq_none_of_not_mem {α : Type} (l : List (String × α)) (k : String)
    (h : k ∉ l.map Prod.fst) : List.lookup k l = none := by
  induction l with
  | nil => rfl
  | cons p t ih =>
    obtain ⟨a, b⟩ := p
    simp only [List.map_cons, List.mem_cons, not_or] at h
    have hne : (k == a) = false := beq_eq_false_iff_ne.mpr h.1
    simp [List.lookup, hne, ih h.2]

lemma lookup_isSome_of_mem {α : Type} (l : List (String × α)) (k : String)
    (h : k ∈ l.map Prod.fst) : ∃ v, List.lookup k l = some v := by
  induction l with
  | nil => simp at h
  | cons p t ih =>
    obtain ⟨a, b⟩ := p
    by_cases hk : k = a
    · exact ⟨b, by simp [List.lookup, hk]⟩
    · have hne : (k == a) = false := beq_eq_false_iff_ne.mpr hk
      simp only [List.map_cons, List.mem_cons] at h
      rcases h with h | h
      · exact absurd h hk
      · obtain ⟨v, hv⟩ := ih h
        exact ⟨v, by simp [List.lookup, hne, hv]⟩

lemma loadSkiaImage_hit (decode : String → Option Img)
    (st : SkiaColorExtractor.CacheState Img Pix) (uri : String) (img : Img)
    (hl : List.lookup uri st.imageCache = some img) :
    SkiaColorExtractor.loadSkiaImage decode st uri = (some img, st) := by
  unfold SkiaColorExtractor.loadSkiaImage
  rw [hl]

lemma loadSkiaImage_miss_full (decode : String → Option Img)
    (st : SkiaColorExtractor.CacheState Img Pix) (uri : String) (img : Img)
    (k0 : String) (i0 : Img) (t : List (String × Img))
    (hl : List.lookup uri st.imageCache = none) (hd : decode uri = some img)
    (hcons : st.imageCache = (k0, i0) :: t) (hk0 : k0 ≠ "")
    (hcap : SkiaColorExtractor.MAX_CACHE_SIZE ≤ st.imageCache.length) :
    (SkiaColorExtractor.loadSkiaImage decode st uri).2.imageCache =
      t ++ [(uri, img)] := by
  unfold SkiaColorExtractor.loadSkiaImage
  rw [hl]
  dsimp only
  rw [if_pos hcap, hcons]
  dsimp only
  rw [if_pos hk0, hd]

lemma loadSkiaImage_miss_room (decode : String → Option Img)
    (st : SkiaColorExtractor.CacheState Img Pix) (uri : String) (img : Img)
    (hl : List.lookup uri st.imageCache = none) (hd : decode uri = some img)
    (hcap : ¬ SkiaColorExtractor.MAX_CACHE_SIZE ≤ st.imageCache.length) :
    (SkiaColorExtractor.loadSkiaImage decode st uri).2.imageCache =
      st.imageCache ++ [(uri, img)] := by
  unfold SkiaColorExtractor.loadSkiaImage
  rw [hl]
  dsimp only
  rw [if_neg hcap, hd]

lemma loadSkiaImage_invariant (decode : String → Option Img)
    (st : SkiaColorExtractor.CacheState Img Pix) (uri : String)
    (hlen : st.imageCache.length ≤ SkiaColorExtractor.MAX_CACHE_SIZE)
    (hkeys : ∀ p ∈ st.imageCache, p.1 ≠ "") (hdec : decode "" = none) :
    (SkiaColorExtractor.loadSkiaImage decode st uri).2.imageCache.length ≤
      SkiaColorExtractor.MAX_CACHE_SIZE ∧
    ∀ p ∈ (SkiaColorExtractor.loadSkiaImage decode st uri).2.imageCache, p.1 ≠ "" := by
  have hM : SkiaColorExtractor.MAX_CACHE_SIZE = 10 := rfl
  cases hl : List.lookup uri st.imageCache with
  | some img => rw [loadSkiaImage_hit decode st uri img hl]; exact ⟨hlen, hkeys⟩
  | none =>
    have huri : decode uri ≠ none → uri ≠ "" := by
      intro hne heq
      rw [heq] at hne
      exact hne hdec
    by_cases hcap : SkiaColorExtractor.MAX_CACHE_SIZE ≤ st.imageCache.length
    · obtain ⟨p0, t, hcons⟩ : ∃ p0 t, st.imageCache = p0 :: t := by
        cases hc : st.imageCache with
        | nil => rw [hc] at hcap; simp [hM] at hcap
        | cons p0 t => exact ⟨p0, t, rfl⟩
      obtain ⟨k0, i0⟩ := p0
      have hk0 : k0 ≠ "" := hkeys (k0, i0) (by rw [hcons]; exact List.mem_cons_self _ _)
      have hlent : t.length + 1 ≤ 10 := by
        have h' := hlen
        rw [hcons] at h'
        simpa [hM] using h'
      cases hd : decode uri with
      | some img =>
        rw [loadSkiaImage_miss_full decode st uri img k0 i0 t hl hd hcons hk0 hcap]
        constructor
        · simp only [List.length_append, List.length_cons, List.length_nil, hM]
          omega
        · intro p hp
          rcases List.mem_append.mp hp with hp | hp
          · exact hkeys p (by rw [hcons]; exact List.mem_cons_of_mem _ hp)
          · simp only [List.mem_singleton] at hp
            subst hp
            exact huri (by rw [hd]; exact Option.some_ne_none img)
      | none =>
        unfold SkiaColorExtractor.loadSkiaImage
        rw [hl]
        dsimp only
        rw [if_pos hcap, hcons]
        dsimp only
        rw [if_pos hk0, hd]
        constructor
        · dsimp only
          omega
        · intro p hp
          exact hkeys p (by rw [hcons]; exact List.mem_cons_of_mem _ hp)
    · cases hd : decode uri with
      | some img =>
        rw [loadSkiaImage_miss_room decode st uri img hl hd hcap]
        constructor
        · simp only [List.length_append, List.length_cons, List.length_nil, hM] at hcap ⊢
          omega
        · intro p hp
          rcases List.mem_append.mp hp with hp | hp
          · exact hkeys p hp
          · simp only [List.mem_singleton] at hp
            subst hp
            exact huri (by rw [hd]; exact Option.some_ne_none img)
      | none =>
        unfold SkiaColorExtractor.loadSkiaImage
        rw [hl]
        dsimp only
        rw [if_neg hcap, hd]
        exact ⟨hlen, hkeys⟩

lemma loadFold_invariant (decode : String → Option Img) (hdec : decode "" = none) :
    ∀ (uris : List String) (st : SkiaColorExtractor.CacheState Img Pix),
      st.imageCache.length ≤ SkiaColorExtractor.MAX_CACHE_SIZE →
      (∀ p ∈ st.imageCache, p.1 ≠ "") →
      (uris.foldl (fun st u => (SkiaColorExtractor.loadSkiaImage decode st u).2)
          st).imageCache.length ≤ SkiaColorExtractor.MAX_CACHE_SIZE ∧
      ∀ p ∈ (uris.foldl (fun st u => (SkiaColorExtractor.loadSkiaImage decode st u).2)
          st).imageCache, p.1 ≠ "" := by
  intro uris
  induction uris with
  | nil => exact fun st h1 h2 => ⟨h1, h2⟩
  | cons u us ih =>
    intro st h1 h2
    obtain ⟨h1', h2'⟩ := loadSkiaImage_invariant decode st u h1 h2 hdec
    exact ih _ h1' h2'

lemma loadFold_keys (decode : String → Option Img) :
    ∀ (uris : List String) (st : SkiaColorExtractor.CacheState Img Pix),
      st.imageCache.length ≤ SkiaColorExtractor.MAX_CACHE_SIZE →
      (∀ p ∈ st.imageCache, p.1 ≠ "") →
      (∀ u ∈ uris, (decode u).isSome) →
      (∀ u ∈ uris, u ∉ st.imageCache.map Prod.fst) →
      uris.Nodup →
      (∀ u ∈ uris, u ≠ "") →
      (uris.foldl (fun st u => (SkiaColorExtractor.loadSkiaImage decode st u).2)
          st).imageCache.map Prod.fst =
        (st.imageCache.map Prod.fst ++ uris).drop
          (st.imageCache.length + uris.length - SkiaColorExtractor.MAX_CACHE_SIZE) := by
  have hM : SkiaColorExtractor.MAX_CACHE_SIZE = 10 := rfl
  intro uris
  induction uris with
  | nil =>
    intro st hlen _ _ _ _
    simp only [List.foldl_nil, List.length_nil, List.append_nil]
    rw [show st.imageCache.length + 0 - SkiaColorExtractor.MAX_CACHE_SIZE = 0 from by omega,
      List.drop_zero]
    exact fun _ => rfl
  | cons u us ih =>
    intro st hlen hkeys hdecs hfresh hnodup hne
    have hlu : List.lookup u st.imageCache = none :=
      lookup_eq_none_of_not_mem _ _ (hfresh u (List.mem_cons_self _ _))
    obtain ⟨img, hd⟩ := Option.isSome_iff_exists.mp (hdecs u (List.mem_cons_self _ _))
    have hu : u ≠ "" := hne u (List.mem_cons_self _ _)
    have hnodup' := (List.nodup_cons.mp hnodup).2
    have hunotin := (List.nodup_cons.mp hnodup).1
    simp only [List.foldl_cons]
    by_cases hcap : SkiaColorExtractor.MAX_CACHE_SIZE ≤ st.imageCache.length
    · obtain ⟨p0, t, hcons⟩ : ∃ p0 t, st.imageCache = p0 :: t := by
        cases hc : st.imageCache with
        | nil => rw [hc] at hcap; simp [hM] at hcap
        | cons p0 t => exact ⟨p0, t, rfl⟩
      obtain ⟨k0, i0⟩ := p0
      have hk0 : k0 ≠ "" := hkeys (k0, i0) (by rw [hcons]; exact List.mem_cons_self _ _)
      have hstep := loadSkiaImage_miss_full decode st u img k0 i0 t hlu hd hcons hk0 hcap
      have hlen10 : st.imageCache.length = 10 := le_antisymm (hM ▸ hlen) (hM ▸ hcap)
      have hlt : t.length = 9 := by
        rw [hcons] at hlen10
        simpa using hlen10
      have hkeys2 : ∀ p ∈ (SkiaColorExtractor.loadSkiaImage decode st u).2.imageCache,
          p.1 ≠ "" := by
        intro p hp
        rw [hstep] at hp
        rcases List.mem_append.mp hp with hp | hp
        · exact hkeys p (by rw [hcons]; exact List.mem_cons_of_mem _ hp)
        · simp only [List.mem_singleton] at hp
          subst hp
          exact hu
      have hkeys2eq : (SkiaColorExtractor.loadSkiaImage decode st u).2.imageCache.map Prod.fst =
          t.map Prod.fst ++ [u] := by
        rw [hstep]
        simp
      have hlen2 : (SkiaColorExtractor.loadSkiaImage decode st u).2.imageCache.length = 10 := by
        rw [hstep]
        simp [hlt]
      have hfresh2 : ∀ v ∈ us,
          v ∉ (SkiaColorExtractor.loadSkiaImage decode st u).2.imageCache.map Prod.fst := by
        intro v hv hvin
        rw [hkeys2eq] at hvin
        rcases List.mem_append.mp hvin with hvin | hvin
        · exact hfresh v (List.mem_cons_of_mem _ hv)
            (by rw [hcons]; simp only [List.map_cons]; exact List.mem_cons_of_mem _ hvin)
        · simp only [List.mem_singleton] at hvin
          exact hunotin (hvin ▸ hv)
      have hrec := ih ((SkiaColorExtractor.loadSkiaImage decode st u).2)
        (by rw [hlen2, hM]) hkeys2 (fun v hv => hdecs v (List.mem_cons_of_mem _ hv))
        hfresh2 hnodup' (fun v hv => hne v (List.mem_cons_of_mem _ hv))
      rw [hrec, hkeys2eq, hlen2, hcons]
      simp only [List.map_cons, List.cons_append, List.append_assoc, List.singleton_append,
        List.length_cons]
      rw [show (10 : ℕ) + us.length - SkiaColorExtractor.MAX_CACHE_SIZE = us.length from by
        rw [hM]; omega]
      rw [show (t.length + 1 + (us.length + 1) - SkiaColorExtractor.MAX_CACHE_SIZE)
          = us.length + 1 from by rw [hM]; omega]
      rw [List.drop_succ_cons, List.nil_append]
    · have hstep := loadSkiaImage_miss_room decode st u img hlu hd hcap
      have hkeys2 : ∀ p ∈ (SkiaColorExtractor.loadSkiaImage decode st u).2.imageCache,
          p.1 ≠ "" := by
        intro p hp
        rw [hstep] at hp
        rcases List.mem_append.mp hp with hp | hp
        · exact hkeys p hp
        · simp only [List.mem_singleton] at hp
          subst hp
          exact hu
      have hkeys2eq : (SkiaColorExtractor.loadSkiaImage decode st u).2.imageCache.map Prod.fst =
          st.imageCache.map Prod.fst ++ [u] := by
        rw [hstep]
        simp
      have hlen2 : (SkiaColorExtractor.loadSkiaImage decode st u).2.imageCache.length =
          st.imageCache.length + 1 := by
        rw [hstep]
        simp
      have hfresh2 : ∀ v ∈ us,
          v ∉ (SkiaColorExtractor.loadSkiaImage decode st u).2.imageCache.map Prod.fst := by
        intro v hv hvin
        rw [hkeys2eq] at hvin
        rcases List.mem_append.mp hvin with hvin | hvin
        · exact hfresh v (List.mem_cons_of_mem _ hv) hvin
        · simp only [List.mem_singleton] at hvin
          exact hunotin (hvin ▸ hv)
      have hrec := ih ((SkiaColorExtractor.loadSkiaImage decode st u).2)
        (by rw [hlen2, hM]; rw [hM] at hcap; omega) hkeys2
        (fun v hv => hdecs v (List.mem_cons_of_mem _ hv))
        hfresh2 hnodup' (fun v hv => hne v (List.mem_cons_of_mem _ hv))
      rw [hrec, hkeys2eq, hlen2]
      rw [List.append_assoc, List.singleton_append]
      rw [show st.imageCache.length + 1 + us.length = st.imageCache.length + (us.length + 1)
        from by omega]
      simp [List.length_cons]


/-- C1: the image cache holds at most `MAX_CACHE_SIZE` (10) entries after
any sequence of loads from empty; inserting an 11th distinct (decodable)
URI evicts the first-inserted URI and keeps the other 10; a cache hit
returns the cached image without touching the state; and because a hit
does not refresh recency, entry #2 is still evicted before the newest
entry when capacity is exceeded again — FIFO, not LRU.  (`decode "" = none`
reflects that reading the empty URI always fails; the source skips the
eviction `Map.delete` when the oldest key is the falsy empty string.) -/
theorem c1_cache_bounded_fifo :
    (∀ (Img Pix : Type) (decode : String → Option Img) (uris : List String),
      decode "" = none →
      (SkiaColorExtractor.loadSeq decode uris :
        SkiaColorExtractor.CacheState Img Pix).imageCache.length ≤
        SkiaColorExtractor.MAX_CACHE_SIZE) ∧
    (∀ (Img Pix : Type) (decode : String → Option Img) (u0 : String) (rest : List String),
      decode "" = none → (u0 :: rest).Nodup →
      rest.length = SkiaColorExtractor.MAX_CACHE_SIZE →
      (∀ u ∈ u0 :: rest, (decode u).isSome) →
      (SkiaColorExtractor.loadSeq decode (u0 :: rest) :
        SkiaColorExtractor.CacheState Img Pix).imageCache.map Prod.fst = rest ∧
      u0 ∉ (SkiaColorExtractor.loadSeq decode (u0 :: rest) :
        SkiaColorExtractor.CacheState Img Pix).imageCache.map Prod.fst) ∧
    (∀ (Img Pix : Type) (decode : String → Option Img)
      (st : SkiaColorExtractor.CacheState Img Pix) (uri : String) (img : Img),
      List.lookup uri st.imageCache = some img →
      SkiaColorExtractor.loadSkiaImage decode st uri = (some img, st)) ∧
    (∀ (Img Pix : Type) (decode : String → Option Img) (u0 u1 lastUri : String)
      (rest : List String),
      decode "" = none → (u0 :: u1 :: (rest ++ [lastUri])).Nodup → rest.length = 9 →
      (∀ u ∈ u0 :: u1 :: (rest ++ [lastUri]), (decode u).isSome) →
      (SkiaColorExtractor.loadSkiaImage decode
          (SkiaColorExtractor.loadSeq decode (u0 :: u1 :: rest) :
            SkiaColorExtractor.CacheState Img Pix) u1).2 =
        SkiaColorExtractor.loadSeq decode (u0 :: u1 :: rest) ∧
      (SkiaColorExtractor.loadSkiaImage decode
          (SkiaColorExtractor.loadSkiaImage decode
            (SkiaColorExtractor.loadSeq decode (u0 :: u1 :: rest) :
              SkiaColorExtractor.CacheState Img Pix) u1).2
          lastUri).2.imageCache.map Prod.fst = rest ++ [lastUri] ∧
      u1 ∉ rest ++ [lastUri]) := by
  have hM : SkiaColorExtractor.MAX_CACHE_SIZE = 10 := rfl
  have hne_of : ∀ (Img : Type) (decode : String → Option Img), decode "" = none →
      ∀ (uris : List String), (∀ u ∈ uris, (decode u).isSome) → ∀ u ∈ uris, u ≠ "" := by
    intro Img decode hdec uris hdecs u hu hval
    have h' := hdecs u hu
    rw [hval, hdec] at h'
    simp at h'
  refine ⟨?_, ?_, ?_, ?_⟩
  · intro Img Pix decode uris hdec
    unfold SkiaColorExtractor.loadSeq
    exact (loadFold_invariant decode hdec uris ⟨[], []⟩ (by simp [hM]) (by simp)).1
  · intro Img Pix decode u0 rest hdec hnodup hlen hdecs
    have hkeys : (SkiaColorExtractor.loadSeq decode (u0 :: rest) :
        SkiaColorExtractor.CacheState Img Pix).imageCache.map Prod.fst = rest := by
      unfold SkiaColorExtractor.loadSeq
      rw [loadFold_keys decode (u0 :: rest) ⟨[], []⟩ (by simp [hM]) (by simp) hdecs
        (by simp) hnodup (hne_of Img decode hdec _ hdecs)]
      simp only [List.map_nil, List.nil_append, List.length_nil, List.length_cons, hlen, hM]
      rw [show (0 + (10 + 1) - 10) = 1 from by omega]
      rfl
    refine ⟨hkeys, ?_⟩
    rw [hkeys]
    exact (List.nodup_cons.mp hnodup).1
  · intro Img Pix decode st uri img hl
    exact loadSkiaImage_hit decode st uri img hl
  · intro Img Pix decode u0 u1 lastUri rest hdec hnodup hlen hdecs
    have hsub : (u0 :: u1 :: rest).Sublist (u0 :: u1 :: (rest ++ [lastUri])) :=
      (List.sublist_append_left rest [lastUri]).cons₂ u1 |>.cons₂ u0
    have hnodup11 : (u0 :: u1 :: rest).Nodup := hnodup.sublist hsub
    have hdecs11 : ∀ u ∈ u0 :: u1 :: rest, (decode u).isSome := fun u hu =>
      hdecs u (hsub.mem hu)
    have hkeys11 : (SkiaColorExtractor.loadSeq decode (u0 :: u1 :: rest) :
        SkiaColorExtractor.CacheState Img Pix).imageCache.map Prod.fst = u1 :: rest := by
      unfold SkiaColorExtractor.loadSeq
      rw [loadFold_keys decode (u0 :: u1 :: rest) ⟨[], []⟩ (by simp [hM]) (by simp) hdecs11
        (by simp) hnodup11 (hne_of Img decode hdec _ hdecs11)]
      simp only [List.map_nil, List.nil_append, List.length_nil, List.length_cons, hlen, hM]
      rw [show (0 + (9 + 1 + 1) - 10) = 1 from by omega]
      rfl
    obtain ⟨img1, hl1⟩ := lookup_isSome_of_mem
      (SkiaColorExtractor.loadSeq decode (u0 :: u1 :: rest) :
        SkiaColorExtractor.CacheState Img Pix).imageCache u1
      (by rw [hkeys11]; exact List.mem_cons_self _ _)
    have hhit : (SkiaColorExtractor.loadSkiaImage decode
        (SkiaColorExtractor.loadSeq decode (u0 :: u1 :: rest) :
          SkiaColorExtractor.CacheState Img Pix) u1).2 =
        SkiaColorExtractor.loadSeq decode (u0 :: u1 :: rest) := by
      rw [loadSkiaImage_hit decode _ u1 img1 hl1]
    refine ⟨hhit, ?_, ?_⟩
    · rw [hhit]
      have hfull : (SkiaColorExtractor.loadSkiaImage decode
          (SkiaColorExtractor.loadSeq decode (u0 :: u1 :: rest) :
            SkiaColorExtractor.CacheState Img Pix) lastUri).2 =
          SkiaColorExtractor.loadSeq decode (u0 :: u1 :: (rest ++ [lastUri])) := by
        unfold SkiaColorExtractor.loadSeq
        simp [List.foldl_append]
      rw [hfull]
      unfold SkiaColorExtractor.loadSeq
      rw [loadFold_keys decode (u0 :: u1 :: (rest ++ [lastUri])) ⟨[], []⟩ (by simp [hM])
        (by simp) hdecs (by simp) hnodup (hne_of Img decode hdec _ hdecs)]
      simp only [List.map_nil, List.nil_append, List.length_nil, List.length_cons,
        List.length_append, hlen, hM]
      rw [show (0 + (9 + 1 + 1 + 1) - 10) = 2 from by omega]
      rfl
    · have h2 := (List.nodup_cons.mp hnodup).2
      exact (List.nodup_cons.mp h2).1

/-- Witness for `c1_cache_bounded_fifo` at a concrete decode oracle and
concrete URI lists. -/
theorem c1_cache_bounded_fifo_witness :
    (SkiaColorExtractor.loadSeq SkiaColorExtractor.demoDecode
      ["u01", "u02", "u03", "u04", "u05", "u06", "u07", "u08", "u09", "u10", "u11"] :
      SkiaColorExtractor.CacheState ℕ ℕ).imageCache.length ≤
      SkiaColorExtractor.MAX_CACHE_SIZE ∧
    (SkiaColorExtractor.loadSeq SkiaColorExtractor.demoDecode
      ("u01" :: ["u02", "u03", "u04", "u05", "u06", "u07", "u08", "u09", "u10", "u11"]) :
      SkiaColorExtractor.CacheState ℕ ℕ).imageCache.map Prod.fst =
      ["u02", "u03", "u04", "u05", "u06", "u07", "u08", "u09", "u10", "u11"] ∧
    SkiaColorExtractor.loadSkiaImage SkiaColorExtractor.demoDecode
      (⟨[("a", 5)], []⟩ : SkiaColorExtractor.CacheState ℕ ℕ) "a" =
      (some 5, (⟨[("a", 5)], []⟩ : SkiaColorExtractor.CacheState ℕ ℕ)) ∧
    "u02" ∉ ["u03", "u04", "u05", "u06", "u07", "u08", "u09", "u10", "u11"] ++ ["u12"] :=
  ⟨c1_cache_bounded_fifo.1 ℕ ℕ _ _ (by decide),
   (c1_cache_bounded_fifo.2.1 ℕ ℕ SkiaColorExtractor.demoDecode "u01"
     ["u02", "u03", "u04", "u05", "u06", "u07", "u08", "u09", "u10", "u11"]
     (by decide) (by decide) (by decide) (by decide)).1,
   c1_cache_bounded_fifo.2.2.1 ℕ ℕ SkiaColorExtractor.demoDecode _ "a" 5 (by decide),
   (c1_cache_bounded_fifo.2.2.2 ℕ ℕ SkiaColorExtractor.demoDecode "u01" "u02" "u12"
     ["u03", "u04", "u05", "u06", "u07", "u08", "u09", "u10", "u11"]
     (by decide) (by decide) (by decide) (by decide)).2.2⟩

end C1

section C4

/-! Basic rounding facts. -/

lemma jsRound_le (x : ℚ) : (jsRound x : ℚ) ≤ x + 1/2 := Int.floor_le _

lemma lt_jsRound (x : ℚ) : x - 1/2 < (jsRound x : ℚ) := by
  unfold jsRound
  have h := Int.lt_floor_add_one (x + 1/2)
  linarith

lemma abs_jsRound_sub (x : ℚ) : |(jsRound x : ℚ) - x| ≤ 1/2 := by
  rw [abs_le]
  constructor
  · have := lt_jsRound x
    linarith
  · have := jsRound_le x
    linarith

lemma jsRound_nonneg (x : ℚ) (h : 0 ≤ x) : 0 ≤ jsRound x := by
  unfold jsRound
  positivity

lemma jsRound_le_of_le (x : ℚ) (n : ℤ) (h : x ≤ n) : jsRound x ≤ n := by
  unfold jsRound
  rw [Int.floor_le_iff]
  linarith

/-! Lipschitz facts for `min`, `max`, `clamp01`, `phiHue`. -/

lemma abs_min_sub_min_le (a b a' b' : ℚ) :
    |min a b - min a' b'| ≤ max |a - a'| |b - b'| := by
  have h1 := le_abs_self (a - a')
  have h2 := neg_abs_le (a - a')
  have h3 := le_abs_self (b - b')
  have h4 := neg_abs_le (b - b')
  have h5 : |a - a'| ≤ max |a - a'| |b - b'| := le_max_left _ _
  have h6 : |b - b'| ≤ max |a - a'| |b - b'| := le_max_right _ _
  rw [min_def, min_def]
  split_ifs <;> rw [abs_le] <;> constructor <;> linarith

lemma abs_max_sub_max_le (a b a' b' : ℚ) :
    |max a b - max a' b'| ≤ max |a - a'| |b - b'| := by
  have h1 := le_abs_self (a - a')
  have h2 := neg_abs_le (a - a')
  have h3 := le_abs_self (b - b')
  have h4 := neg_abs_le (b - b')
  have h5 : |a - a'| ≤ max |a - a'| |b - b'| := le_max_left _ _
  have h6 : |b - b'| ≤ max |a - a'| |b - b'| := le_max_right _ _
  rw [max_def, max_def]
  split_ifs <;> rw [abs_le] <;> constructor <;> linarith

lemma clamp01_nonneg (x : ℚ) : 0 ≤ LibraryStorage.clamp01 x := by
  unfold LibraryStorage.clamp01
  simp [le_min_iff, le_max_iff]

lemma clamp01_le_one (x : ℚ) : LibraryStorage.clamp01 x ≤ 1 := by
  unfold LibraryStorage.clamp01
  exact min_le_left _ _

lemma clamp01_lipschitz (a b : ℚ) :
    |LibraryStorage.clamp01 a - LibraryStorage.clamp01 b| ≤ |a - b| := by
  unfold LibraryStorage.clamp01
  calc |min 1 (max 0 a) - min 1 (max 0 b)|
      ≤ max |(1 : ℚ) - 1| |max 0 a - max 0 b| := abs_min_sub_min_le _ _ _ _
    _ ≤ |a - b| := by
        apply max_le
        · simp [abs_nonneg]
        · calc |max 0 a - max 0 b| ≤ max |(0 : ℚ) - 0| |a - b| := abs_max_sub_max_le _ _ _ _
            _ ≤ |a - b| := by apply max_le <;> simp [abs_nonneg]

lemma phiHue_nonneg (t : ℚ) : 0 ≤ LibraryStorage.phiHue t := clamp01_nonneg _

lemma phiHue_le_one (t : ℚ) : LibraryStorage.phiHue t ≤ 1 := clamp01_le_one _

lemma phiHue_lipschitz (a b : ℚ) :
    |LibraryStorage.phiHue a - LibraryStorage.phiHue b| ≤ 6 * |a - b| := by
  unfold LibraryStorage.phiHue
  refine le_trans (clamp01_lipschitz _ _) ?_
  refine le_trans (abs_max_sub_max_le _ _ _ _) ?_
  apply max_le
  · refine le_trans (abs_min_sub_min_le _ _ _ _) ?_
    apply max_le
    · rw [show 6 * a - 6 * b = 6 * (a - b) from by ring, abs_mul]
      rw [show |(6 : ℚ)| = 6 from by norm_num]
    · rw [show 4 - 6 * a - (4 - 6 * b) = -(6 * (a - b)) from by ring, abs_neg, abs_mul]
      rw [show |(6 : ℚ)| = 6 from by norm_num]
  · rw [show 6 * a - 6 - (6 * b - 6) = 6 * (a - b) from by ring, abs_mul]
    rw [show |(6 : ℚ)| = 6 from by norm_num]

/-! Evaluation of `phiHue` on its linear pieces. -/

lemma phiHue_eq_zero_left (t : ℚ) (h : t ≤ 0) : LibraryStorage.phiHue t = 0 := by
  unfold LibraryStorage.phiHue LibraryStorage.clamp01
  simp only [min_def, max_def]
  split_ifs <;> linarith

lemma phiHue_eq_ramp_up (t : ℚ) (h0 : 0 ≤ t) (h1 : t ≤ 1/6) :
    LibraryStorage.phiHue t = 6 * t := by
  unfold LibraryStorage.phiHue LibraryStorage.clamp01
  simp only [min_def, max_def]
  split_ifs <;> linarith

lemma phiHue_eq_one_mid (t : ℚ) (h0 : 1/6 ≤ t) (h1 : t ≤ 1/2) :
    LibraryStorage.phiHue t = 1 := by
  unfold LibraryStorage.phiHue LibraryStorage.clamp01
  simp only [min_def, max_def]
  split_ifs <;> linarith

lemma phiHue_eq_ramp_down (t : ℚ) (h0 : 1/2 ≤ t) (h1 : t ≤ 2/3) :
    LibraryStorage.phiHue t = 4 - 6 * t := by
  unfold LibraryStorage.phiHue LibraryStorage.clamp01
  simp only [min_def, max_def]
  split_ifs <;> linarith

lemma phiHue_eq_zero_right (t : ℚ) (h0 : 2/3 ≤ t) (h1 : t ≤ 1) :
    LibraryStorage.phiHue t = 0 := by
  unfold LibraryStorage.phiHue LibraryStorage.clamp01
  simp only [min_def, max_def]
  split_ifs <;> linarith

lemma phiHue_eq_ramp_up2 (t : ℚ) (h0 : 1 ≤ t) (h1 : t ≤ 7/6) :
    LibraryStorage.phiHue t = 6 * t - 6 := by
  unfold LibraryStorage.phiHue LibraryStorage.clamp01
  simp only [min_def, max_def]
  split_ifs <;> linarith

lemma phiHue_eq_one_right (t : ℚ) (h0 : 7/6 ≤ t) : LibraryStorage.phiHue t = 1 := by
  unfold LibraryStorage.phiHue LibraryStorage.clamp01
  simp only [min_def, max_def]
  split_ifs <;> linarith

end C4

/-! Layer 2: `hueToRgb` closed form, truncation and wrap-around. -/

lemma hueToRgb_self (p t : ℚ) : LibraryStorage.hueToRgb p p t = p := by
  unfold LibraryStorage.hueToRgb
  dsimp only
  split_ifs <;> ring

set_option maxHeartbeats 1600000 in
lemma hueToRgb_eq_phi (p q t : ℚ) (h0 : -(1/3) ≤ t) (h1 : t ≤ 4/3) :
    LibraryStorage.hueToRgb p q t = p + (q - p) * LibraryStorage.phiHue t := by
  unfold LibraryStorage.hueToRgb LibraryStorage.phiHue LibraryStorage.clamp01
  dsimp only
  simp only [min_def, max_def]
  split_ifs <;>
    first
      | ring1
      | linarith
      | (have ht : t = 1/2 := by linarith
         subst ht; ring1)
      | (have ht : t = 1 := by linarith
         subst ht; ring1)
      | (have ht : t = 2/3 := by linarith
         subst ht; ring1)

lemma jsTrunc_eq_floor (q : ℚ) (h : 0 ≤ q) : LibraryStorage.jsTrunc q = ⌊q⌋ := by
  unfold LibraryStorage.jsTrunc
  rw [Int.tdiv_eq_ediv (Rat.num_nonneg.mpr h) (by positivity)]
  exact Rat.floor_def.symm

lemma jsModulo_wrap (h1 : ℤ) (hlo : 0 ≤ h1) (hhi : h1 ≤ 360) :
    LibraryStorage.jsModulo (LibraryStorage.jsModulo (h1 : ℚ) 360 + 360) 360 =
      if h1 = 360 then (0 : ℚ) else (h1 : ℚ) := by
  have hx : (0:ℚ) ≤ (h1:ℚ) := by exact_mod_cast hlo
  have hx' : (h1:ℚ) ≤ 360 := by exact_mod_cast hhi
  by_cases hc : h1 = 360
  · subst hc
    rw [if_pos rfl]
    have f1 : ⌊((360:ℤ):ℚ) / 360⌋ = 1 := by norm_num
    have hinner : LibraryStorage.jsModulo ((360:ℤ):ℚ) 360 = 0 := by
      unfold LibraryStorage.jsModulo
      rw [jsTrunc_eq_floor _ (by positivity), f1]
      norm_num
    rw [hinner]
    have f2 : ⌊((0:ℚ) + 360) / 360⌋ = 1 := by norm_num
    unfold LibraryStorage.jsModulo
    rw [jsTrunc_eq_floor _ (by norm_num), f2]
    norm_num
  · rw [if_neg hc]
    have hlt : (h1:ℚ) < 360 := by
      have : h1 < 360 := lt_of_le_of_ne hhi hc
      exact_mod_cast this
    have f1 : ⌊(h1:ℚ) / 360⌋ = 0 := by
      rw [Int.floor_eq_iff]
      constructor
      · positivity
      · push_cast
        rw [div_lt_iff₀ (by norm_num : (0:ℚ) < 360)]
        linarith
    have hinner : LibraryStorage.jsModulo (h1:ℚ) 360 = (h1:ℚ) := by
      unfold LibraryStorage.jsModulo
      rw [jsTrunc_eq_floor _ (by positivity), f1]
      norm_num
    rw [hinner]
    have f2 : ⌊((h1:ℚ) + 360) / 360⌋ = 1 := by
      rw [Int.floor_eq_iff]
      constructor
      · push_cast
        rw [le_div_iff₀ (by norm_num : (0:ℚ) < 360)]
        linarith
      · push_cast
        rw [div_lt_iff₀ (by norm_num : (0:ℚ) < 360)]
        linarith
    unfold LibraryStorage.jsModulo
    rw [jsTrunc_eq_floor _ (by positivity), f2]
    push_cast
    ring

/-! Layer 3: the wrap-around perturbation of `phiHue`, and the channel bound. -/

lemma phi_wrap_bound (h0 : ℚ) (h1 : ℤ) (off : ℚ)
    (_hh0 : 0 ≤ h0) (hh1 : h0 < 360) (hr : |(h1 : ℚ) - h0| ≤ 1/2)
    (hoff : off = 1/3 ∨ off = 0 ∨ off = -(1/3)) :
    |LibraryStorage.phiHue ((if h1 = 360 then (0:ℚ) else (h1:ℚ)) / 360 + off) -
      LibraryStorage.phiHue (h0 / 360 + off)| ≤ 1/120 := by
  obtain ⟨hr1, hr2⟩ := abs_le.mp hr
  by_cases hc : h1 = 360
  · rw [if_pos hc]
    have h360 : ((h1:ℚ)) = 360 := by rw [hc]; norm_num
    rw [h360] at hr1 hr2
    have hu0 : (719:ℚ)/720 ≤ h0 / 360 := by
      rw [le_div_iff₀ (by norm_num : (0:ℚ) < 360)]
      linarith
    have hu1 : h0 / 360 < 1 := by
      rw [div_lt_one (by norm_num : (0:ℚ) < 360)]
      linarith
    rcases hoff with h | h | h <;> subst h
    · have e1 : LibraryStorage.phiHue ((0:ℚ)/360 + 1/3) = 1 := by
        apply phiHue_eq_one_mid <;> norm_num
      have e2 : LibraryStorage.phiHue (h0/360 + 1/3) = 1 :=
        phiHue_eq_one_right _ (by linarith)
      rw [e1, e2]
      norm_num
    · have e1 : LibraryStorage.phiHue ((0:ℚ)/360 + 0) = 0 := by
        apply phiHue_eq_zero_left
        norm_num
      have e2 : LibraryStorage.phiHue (h0/360 + 0) = 0 :=
        phiHue_eq_zero_right _ (by linarith) (by linarith)
      rw [e1, e2]
      norm_num
    · have e1 : LibraryStorage.phiHue ((0:ℚ)/360 + -(1/3)) = 0 := by
        apply phiHue_eq_zero_left
        norm_num
      have e2 : LibraryStorage.phiHue (h0/360 + -(1/3)) = 4 - 6 * (h0/360 + -(1/3)) :=
        phiHue_eq_ramp_down _ (by linarith) (by linarith)
      rw [e1, e2, abs_le]
      constructor <;> linarith
  · rw [if_neg hc]
    refine le_trans (phiHue_lipschitz _ _) ?_
    have e : (h1:ℚ)/360 + off - (h0/360 + off) = ((h1:ℚ) - h0)/360 := by ring
    rw [e, abs_div, show |(360:ℚ)| = 360 from by norm_num]
    have habs : (0:ℚ) ≤ |(h1:ℚ) - h0| := abs_nonneg _
    linarith

lemma channel_bound (p0 q0 pv qv f0 fv : ℚ) (c : ℤ)
    (hq : |qv - q0| ≤ 1/40) (hp : |pv - p0| ≤ 7/200)
    (hf : |fv - f0| ≤ 1/120) (hfv0 : 0 ≤ fv) (hfv1 : fv ≤ 1)
    (hd0 : 0 ≤ q0 - p0) (hd1 : q0 - p0 ≤ 1)
    (hc : (c:ℚ) = 255 * (p0 + (q0 - p0) * f0)) :
    |(jsRound ((pv + (qv - pv) * fv) * 255) : ℚ) - (c:ℚ)| ≤ 12 := by
  have e : pv + (qv - pv) * fv - (p0 + (q0 - p0) * f0) =
      (pv - p0) * (1 - fv) + (qv - q0) * fv + (q0 - p0) * (fv - f0) := by ring
  have t1 : |(pv - p0) * (1 - fv)| ≤ 7/200 * (1 - fv) := by
    rw [abs_mul, abs_of_nonneg (by linarith : (0:ℚ) ≤ 1 - fv)]
    exact mul_le_mul_of_nonneg_right hp (by linarith)
  have t2 : |(qv - q0) * fv| ≤ 1/40 * fv := by
    rw [abs_mul, abs_of_nonneg hfv0]
    exact mul_le_mul_of_nonneg_right hq hfv0
  have t3 : |(q0 - p0) * (fv - f0)| ≤ 1/120 := by
    rw [abs_mul, abs_of_nonneg hd0]
    calc (q0 - p0) * |fv - f0| ≤ 1 * |fv - f0| :=
          mul_le_mul_of_nonneg_right hd1 (abs_nonneg _)
      _ ≤ 1/120 := by rw [one_mul]; exact hf
  have hval : |pv + (qv - pv) * fv - (p0 + (q0 - p0) * f0)| ≤ 7/200 + 1/120 := by
    rw [e]
    calc |(pv - p0) * (1 - fv) + (qv - q0) * fv + (q0 - p0) * (fv - f0)|
        ≤ |(pv - p0) * (1 - fv) + (qv - q0) * fv| + |(q0 - p0) * (fv - f0)| :=
          abs_add _ _
      _ ≤ |(pv - p0) * (1 - fv)| + |(qv - q0) * fv| + |(q0 - p0) * (fv - f0)| := by
          have := abs_add ((pv - p0) * (1 - fv)) ((qv - q0) * fv)
          linarith
      _ ≤ 7/200 + 1/120 := by linarith
  have hround := abs_jsRound_sub ((pv + (qv - pv) * fv) * 255)
  have e2 : (pv + (qv - pv) * fv) * 255 - (c:ℚ) =
      255 * (pv + (qv - pv) * fv - (p0 + (q0 - p0) * f0)) := by rw [hc]; ring
  have h255 : |(pv + (qv - pv) * fv) * 255 - (c:ℚ)| ≤ 255 * (7/200 + 1/120) := by
    rw [e2, abs_mul, show |(255:ℚ)| = 255 from by norm_num]
    exact mul_le_mul_of_nonneg_left hval (by norm_num)
  have htri : |(jsRound ((pv + (qv - pv) * fv) * 255) : ℚ) - (c:ℚ)| ≤
      |(jsRound ((pv + (qv - pv) * fv) * 255) : ℚ) - (pv + (qv - pv) * fv) * 255| +
      |(pv + (qv - pv) * fv) * 255 - (c:ℚ)| := abs_sub_le _ _ _
  linarith

/-! Layer 4: the master per-channel round-trip bound. -/

set_option maxHeartbeats 3200000 in
lemma channel_roundtrip_bound
    (mx mn h0 off s0 w sV lV qv pv : ℚ) (c h1 s1 l1 : ℤ)
    (hmn0 : 0 ≤ mn) (hmx1 : mx ≤ 1) (hlt : mn < mx)
    (hh0 : 0 ≤ h0) (hh1lt : h0 < 360)
    (hoff : off = 1/3 ∨ off = 0 ∨ off = -(1/3))
    (hs0 : s0 = if (mx + mn)/2 > 1/2 then (mx - mn)/(2 - mx - mn) else (mx - mn)/(mx + mn))
    (hh1e : h1 = jsRound h0)
    (hs1e : s1 = jsRound (s0 * 100))
    (hl1e : l1 = jsRound ((mx + mn)/2 * 100))
    (hw : w = LibraryStorage.jsModulo (LibraryStorage.jsModulo (h1:ℚ) 360 + 360) 360)
    (hsV : sV = min 100 (max 0 (s1:ℚ)) / 100)
    (hlV : lV = min 100 (max 0 (l1:ℚ)) / 100)
    (hqv : qv = if lV < 1/2 then lV * (1 + sV) else lV + sV - lV * sV)
    (hpv : pv = 2 * lV - qv)
    (t : ℚ) (ht : t = w/360 + off)
    (hc : (c:ℚ) = 255 * (mn + (mx - mn) * LibraryStorage.phiHue (h0/360 + off))) :
    |(jsRound (LibraryStorage.hueToRgb pv qv t * 255) : ℚ) - (c:ℚ)| ≤ 12 := by
  subst ht
  have hmx0 : 0 < mx := lt_of_le_of_lt hmn0 hlt
  have hmn1 : mn < 1 := lt_of_lt_of_le hlt hmx1
  -- saturation is in (0, 1]
  have hs00 : 0 < s0 ∧ s0 ≤ 1 := by
    rw [hs0]
    split_ifs with hbr
    · have hden : (0:ℚ) < 2 - mx - mn := by linarith
      constructor
      · exact div_pos (by linarith) hden
      · rw [div_le_one hden]; linarith
    · have hden : (0:ℚ) < mx + mn := by linarith
      constructor
      · exact div_pos (by linarith) hden
      · rw [div_le_one hden]; linarith
  obtain ⟨hs0pos, hs0le⟩ := hs00
  -- the rounded lightness is in [0, 100] and the clamp is the identity
  have hl10 : 0 ≤ l1 := by
    rw [hl1e]; exact jsRound_nonneg _ (by linarith)
  have hl1100 : l1 ≤ 100 := by
    rw [hl1e]; apply jsRound_le_of_le; push_cast; linarith
  have hlVe : lV = (l1:ℚ)/100 := by
    rw [hlV, max_eq_right (by exact_mod_cast hl10 : (0:ℚ) ≤ (l1:ℚ)),
      min_eq_right (by exact_mod_cast hl1100 : (l1:ℚ) ≤ 100)]
  have hlVd : |lV - (mx + mn)/2| ≤ 1/200 := by
    have hd := abs_jsRound_sub ((mx + mn)/2 * 100)
    rw [← hl1e] at hd
    rw [abs_le] at hd ⊢
    rw [hlVe]
    constructor <;> linarith [hd.1, hd.2]
  have hlV0 : 0 ≤ lV := by
    rw [hlVe]; positivity
  have hlV1 : lV ≤ 1 := by
    rw [hlVe, div_le_one (by norm_num : (0:ℚ) < 100)]
    exact_mod_cast hl1100
  -- the rounded saturation is in [0, 100] and the clamp is the identity
  have hs10 : 0 ≤ s1 := by
    rw [hs1e]; exact jsRound_nonneg _ (by nlinarith)
  have hs1100 : s1 ≤ 100 := by
    rw [hs1e]; apply jsRound_le_of_le; push_cast; nlinarith
  have hsVe : sV = (s1:ℚ)/100 := by
    rw [hsV, max_eq_right (by exact_mod_cast hs10 : (0:ℚ) ≤ (s1:ℚ)),
      min_eq_right (by exact_mod_cast hs1100 : (s1:ℚ) ≤ 100)]
  have hsVd : |sV - s0| ≤ 1/200 := by
    have hd := abs_jsRound_sub (s0 * 100)
    rw [← hs1e] at hd
    rw [abs_le] at hd ⊢
    rw [hsVe]
    constructor <;> linarith [hd.1, hd.2]
  have hsV0 : 0 ≤ sV := by
    rw [hsVe]; positivity
  have hsV1 : sV ≤ 1 := by
    rw [hsVe, div_le_one (by norm_num : (0:ℚ) < 100)]
    exact_mod_cast hs1100
  have hsVabs : |sV| ≤ 1 := by rw [abs_of_nonneg hsV0]; exact hsV1
  obtain ⟨hlVd1, hlVd2⟩ := abs_le.mp hlVd
  obtain ⟨hsVd1, hsVd2⟩ := abs_le.mp hsVd
  -- |q' - mx| ≤ 1/40
  have hqb : |qv - mx| ≤ 1/40 := by
    by_cases hb0 : (mx + mn)/2 > 1/2
    · have hden : (0:ℚ) < 2 - mx - mn := by linarith
      have hs0e : s0 = (mx - mn)/(2 - mx - mn) := by rw [hs0, if_pos hb0]
      have hid : (mx + mn)/2 + s0 - (mx + mn)/2 * s0 = mx := by
        rw [hs0e]; field_simp; ring
      by_cases hbV : lV < 1/2
      · -- exact lightness above 1/2, rounded lightness below: boundary flip
        have habs2l : |2 * lV - 1| ≤ 1/100 := by
          rw [abs_le]; constructor <;> linarith
        have e0 : lV * (1 + sV) - mx =
            lV * (1 + sV) - ((mx + mn)/2 + s0 - (mx + mn)/2 * s0) := by rw [hid]
        have e : lV * (1 + sV) - ((mx + mn)/2 + s0 - (mx + mn)/2 * s0) =
            sV * (2 * lV - 1) + (lV - (mx + mn)/2) * (1 - s0) +
              (sV - s0) * (1 - lV) := by ring
        rw [hqv, if_pos hbV, e0, e]
        have b1 : |sV * (2 * lV - 1)| ≤ 1 * (1/100) := by
          rw [abs_mul]
          exact mul_le_mul hsVabs habs2l (abs_nonneg _) (by norm_num)
        have b2 : |(lV - (mx + mn)/2) * (1 - s0)| ≤ (1/200) * 1 := by
          rw [abs_mul]
          exact mul_le_mul hlVd (by rw [abs_le]; constructor <;> linarith)
            (abs_nonneg _) (by norm_num)
        have b3 : |(sV - s0) * (1 - lV)| ≤ (1/200) * (101/200) := by
          rw [abs_mul]
          exact mul_le_mul hsVd (by rw [abs_le]; constructor <;> linarith)
            (abs_nonneg _) (by norm_num)
        have t1 := abs_add (sV * (2 * lV - 1)) ((lV - (mx + mn)/2) * (1 - s0))
        have t2 := abs_add (sV * (2 * lV - 1) + (lV - (mx + mn)/2) * (1 - s0))
          ((sV - s0) * (1 - lV))
        linarith
      · -- both sides on the high-lightness branch
        have e0 : lV + sV - lV * sV - mx =
            lV + sV - lV * sV - ((mx + mn)/2 + s0 - (mx + mn)/2 * s0) := by rw [hid]
        have e : lV + sV - lV * sV - ((mx + mn)/2 + s0 - (mx + mn)/2 * s0) =
            (lV - (mx + mn)/2) * (1 - s0) + (sV - s0) * (1 - lV) := by ring
        rw [hqv, if_neg hbV, e0, e]
        have b2 : |(lV - (mx + mn)/2) * (1 - s0)| ≤ (1/200) * 1 := by
          rw [abs_mul]
          exact mul_le_mul hlVd (by rw [abs_le]; constructor <;> linarith)
            (abs_nonneg _) (by norm_num)
        have b3 : |(sV - s0) * (1 - lV)| ≤ (1/200) * (1/2) := by
          rw [abs_mul]
          exact mul_le_mul hsVd (by rw [abs_le]; constructor <;> linarith)
            (abs_nonneg _) (by norm_num)
        have t2 := abs_add ((lV - (mx + mn)/2) * (1 - s0)) ((sV - s0) * (1 - lV))
        linarith
    · have hden : (0:ℚ) < mx + mn := by linarith
      have hs0e : s0 = (mx - mn)/(mx + mn) := by rw [hs0, if_neg hb0]
      have hid : (mx + mn)/2 * (1 + s0) = mx := by
        rw [hs0e]; field_simp; ring
      by_cases hbV : lV < 1/2
      · -- both sides on the low-lightness branch
        have e0 : lV * (1 + sV) - mx =
            lV * (1 + sV) - (mx + mn)/2 * (1 + s0) := by rw [hid]
        have e : lV * (1 + sV) - (mx + mn)/2 * (1 + s0) =
            (lV - (mx + mn)/2) * (1 + s0) + lV * (sV - s0) := by ring
        rw [hqv, if_pos hbV, e0, e]
        have b1 : |(lV - (mx + mn)/2) * (1 + s0)| ≤ (1/200) * 2 := by
          rw [abs_mul]
          exact mul_le_mul hlVd (by rw [abs_le]; constructor <;> linarith)
            (abs_nonneg _) (by norm_num)
        have b2 : |lV * (sV - s0)| ≤ (1/2) * (1/200) := by
          rw [abs_mul]
          exact mul_le_mul (by rw [abs_of_nonneg hlV0]; linarith) hsVd
            (abs_nonneg _) (by norm_num)
        have t1 := abs_add ((lV - (mx + mn)/2) * (1 + s0)) (lV * (sV - s0))
        linarith
      · -- exact lightness at or below 1/2, rounded lightness above: boundary flip
        have habs2l : |1 - 2 * lV| ≤ 1/100 := by
          rw [abs_le]; constructor <;> linarith
        have e0 : lV + sV - lV * sV - mx =
            lV + sV - lV * sV - (mx + mn)/2 * (1 + s0) := by rw [hid]
        have e : lV + sV - lV * sV - (mx + mn)/2 * (1 + s0) =
            sV * (1 - 2 * lV) + (lV - (mx + mn)/2) * (1 + s0) +
              lV * (sV - s0) := by ring
        rw [hqv, if_neg hbV, e0, e]
        have b1 : |sV * (1 - 2 * lV)| ≤ 1 * (1/100) := by
          rw [abs_mul]
          exact mul_le_mul hsVabs habs2l (abs_nonneg _) (by norm_num)
        have b2 : |(lV - (mx + mn)/2) * (1 + s0)| ≤ (1/200) * 2 := by
          rw [abs_mul]
          exact mul_le_mul hlVd (by rw [abs_le]; constructor <;> linarith)
            (abs_nonneg _) (by norm_num)
        have b3 : |lV * (sV - s0)| ≤ (101/200) * (1/200) := by
          rw [abs_mul]
          exact mul_le_mul (by rw [abs_of_nonneg hlV0]; linarith) hsVd
            (abs_nonneg _) (by norm_num)
        have t1 := abs_add (sV * (1 - 2 * lV)) ((lV - (mx + mn)/2) * (1 + s0))
        have t2 := abs_add (sV * (1 - 2 * lV) + (lV - (mx + mn)/2) * (1 + s0))
          (lV * (sV - s0))
        linarith
  -- |p' - mn| ≤ 7/200
  have hpb : |pv - mn| ≤ 7/200 := by
    rw [hpv]
    rw [abs_le] at hqb ⊢
    constructor <;> linarith [hqb.1, hqb.2]
  -- hue wrap-around and range of the shifted argument
  have hr : |(h1:ℚ) - h0| ≤ 1/2 := by
    rw [hh1e]; exact abs_jsRound_sub h0
  have hh1lo : 0 ≤ h1 := by rw [hh1e]; exact jsRound_nonneg _ hh0
  have hh1hi : h1 ≤ 360 := by
    rw [hh1e]; apply jsRound_le_of_le; push_cast; linarith
  have hwe : w = if h1 = 360 then (0:ℚ) else (h1:ℚ) := by
    rw [hw]; exact jsModulo_wrap h1 hh1lo hh1hi
  have hw0 : 0 ≤ w := by
    rw [hwe]; split_ifs with h
    · norm_num
    · exact_mod_cast hh1lo
  have hw359 : w ≤ 359 := by
    rw [hwe]; split_ifs with h
    · norm_num
    · have : h1 ≤ 359 := by omega
      exact_mod_cast this
  have hdiv0 : 0 ≤ w/360 := by positivity
  have hdiv1 : w/360 ≤ 1 := by
    rw [div_le_one (by norm_num : (0:ℚ) < 360)]; linarith
  have hoffb : -(1/3) ≤ off ∧ off ≤ 1/3 := by
    rcases hoff with h | h | h <;> subst h <;> norm_num
  have ht'lo : -(1/3) ≤ w/360 + off := by linarith [hoffb.1]
  have ht'hi : w/360 + off ≤ 4/3 := by linarith [hoffb.2]
  have hphi : |LibraryStorage.phiHue (w/360 + off) -
      LibraryStorage.phiHue (h0/360 + off)| ≤ 1/120 := by
    rw [hwe]
    exact phi_wrap_bound h0 h1 off hh0 hh1lt hr hoff
  rw [hueToRgb_eq_phi pv qv _ ht'lo ht'hi]
  exact channel_bound mn mx pv qv (LibraryStorage.phiHue (h0/360 + off))
    (LibraryStorage.phiHue (w/360 + off)) c hqb hpb hphi
    (phiHue_nonneg _) (phiHue_le_one _) (by linarith) (by linarith) hc

/-! Layer 5: the achromatic and the rounded-to-gray paths. -/

lemma gray_value_bound (l0 : ℚ) (c l1 : ℤ) (h0l : 0 ≤ l0) (h1l : l0 ≤ 1)
    (hl1 : l1 = jsRound (l0 * 100)) (hc : (c:ℚ) = 255 * l0) :
    |(jsRound (min 100 (max 0 (l1:ℚ)) / 100 * 255) : ℚ) - (c:ℚ)| ≤ 12 := by
  have hl10 : 0 ≤ l1 := by rw [hl1]; exact jsRound_nonneg _ (by linarith)
  have hl1100 : l1 ≤ 100 := by
    rw [hl1]; apply jsRound_le_of_le; push_cast; linarith
  have hlVe : min 100 (max 0 (l1:ℚ)) / 100 = (l1:ℚ)/100 := by
    rw [max_eq_right (by exact_mod_cast hl10 : (0:ℚ) ≤ (l1:ℚ)),
      min_eq_right (by exact_mod_cast hl1100 : (l1:ℚ) ≤ 100)]
  rw [hlVe]
  have hd := abs_jsRound_sub (l0 * 100)
  rw [← hl1] at hd
  obtain ⟨hd1, hd2⟩ := abs_le.mp hd
  have hround := abs_jsRound_sub ((l1:ℚ)/100 * 255)
  obtain ⟨hr1, hr2⟩ := abs_le.mp hround
  rw [abs_le]
  constructor <;> linarith

lemma gray_branch_bound (mx mn s0 f : ℚ) (c l1 : ℤ)
    (hmn0 : 0 ≤ mn) (hmx1 : mx ≤ 1) (hlt : mn < mx)
    (hs0 : s0 = if (mx + mn)/2 > 1/2 then (mx - mn)/(2 - mx - mn) else (mx - mn)/(mx + mn))
    (hs1z : jsRound (s0 * 100) = 0)
    (hl1e : l1 = jsRound ((mx + mn)/2 * 100))
    (hf0 : 0 ≤ f) (hf1 : f ≤ 1)
    (hc : (c:ℚ) = 255 * (mn + (mx - mn) * f)) :
    |(jsRound (min 100 (max 0 (l1:ℚ)) / 100 * 255) : ℚ) - (c:ℚ)| ≤ 12 := by
  have hmx0 : 0 < mx := lt_of_le_of_lt hmn0 hlt
  have hmn1 : mn < 1 := lt_of_lt_of_le hlt hmx1
  -- the unrounded saturation is below the rounding threshold
  have hs0small : s0 < 1/200 := by
    have := lt_jsRound (s0 * 100)
    rw [hs1z] at this
    push_cast at this
    linarith
  -- the exact saturation dominates the chroma
  have hdle : mx - mn ≤ s0 := by
    rw [hs0]
    split_ifs with hbr
    · have hden : (0:ℚ) < 2 - mx - mn := by linarith
      rw [le_div_iff₀ hden]
      nlinarith
    · have hden : (0:ℚ) < mx + mn := by linarith
      rw [le_div_iff₀ hden]
      nlinarith
  have hdsmall : mx - mn < 1/200 := lt_of_le_of_lt hdle hs0small
  -- lightness rounding
  have hl10 : 0 ≤ l1 := by rw [hl1e]; exact jsRound_nonneg _ (by linarith)
  have hl1100 : l1 ≤ 100 := by
    rw [hl1e]; apply jsRound_le_of_le; push_cast; linarith
  have hlVe : min 100 (max 0 (l1:ℚ)) / 100 = (l1:ℚ)/100 := by
    rw [max_eq_right (by exact_mod_cast hl10 : (0:ℚ) ≤ (l1:ℚ)),
      min_eq_right (by exact_mod_cast hl1100 : (l1:ℚ) ≤ 100)]
  rw [hlVe]
  have hd := abs_jsRound_sub ((mx + mn)/2 * 100)
  rw [← hl1e] at hd
  obtain ⟨hd1, hd2⟩ := abs_le.mp hd
  -- the target channel is within half the chroma of the exact lightness
  have hprod0 : 0 ≤ (mx - mn) * f := mul_nonneg (by linarith) hf0
  have hprod1 : (mx - mn) * f ≤ mx - mn := by nlinarith
  have hround := abs_jsRound_sub ((l1:ℚ)/100 * 255)
  obtain ⟨hr1, hr2⟩ := abs_le.mp hround
  rw [abs_le]
  constructor <;> linarith

/-! Layer 6: dispatching `hslToRgb` on a rounded chromatic HSL triple. -/

set_option maxHeartbeats 3200000 in
lemma hslToRgb_of_rounded (mx mn h0 s0 : ℚ) (cR cG cB : ℤ)
    (hmn0 : 0 ≤ mn) (hmx1 : mx ≤ 1) (hlt : mn < mx)
    (hh0 : 0 ≤ h0) (hh1lt : h0 < 360)
    (hs0 : s0 = if (mx + mn)/2 > 1/2 then (mx - mn)/(2 - mx - mn) else (mx - mn)/(mx + mn))
    (hcR : (cR:ℚ) = 255 * (mn + (mx - mn) * LibraryStorage.phiHue (h0/360 + 1/3)))
    (hcG : (cG:ℚ) = 255 * (mn + (mx - mn) * LibraryStorage.phiHue (h0/360 + 0)))
    (hcB : (cB:ℚ) = 255 * (mn + (mx - mn) * LibraryStorage.phiHue (h0/360 + -(1/3)))) :
    |(LibraryStorage.hslToRgb ((jsRound h0 : ℤ) : ℚ)
        ((jsRound (s0 * 100) : ℤ) : ℚ) ((jsRound ((mx + mn)/2 * 100) : ℤ) : ℚ)).r - cR| ≤ 12 ∧
    |(LibraryStorage.hslToRgb ((jsRound h0 : ℤ) : ℚ)
        ((jsRound (s0 * 100) : ℤ) : ℚ) ((jsRound ((mx + mn)/2 * 100) : ℤ) : ℚ)).g - cG| ≤ 12 ∧
    |(LibraryStorage.hslToRgb ((jsRound h0 : ℤ) : ℚ)
        ((jsRound (s0 * 100) : ℤ) : ℚ) ((jsRound ((mx + mn)/2 * 100) : ℤ) : ℚ)).b - cB| ≤ 12 := by
  have hmx0 : 0 < mx := lt_of_le_of_lt hmn0 hlt
  have hmn1 : mn < 1 := lt_of_lt_of_le hlt hmx1
  have hs00 : 0 < s0 ∧ s0 ≤ 1 := by
    rw [hs0]
    split_ifs with hbr
    · have hden : (0:ℚ) < 2 - mx - mn := by linarith
      constructor
      · exact div_pos (by linarith) hden
      · rw [div_le_one hden]; linarith
    · have hden : (0:ℚ) < mx + mn := by linarith
      constructor
      · exact div_pos (by linarith) hden
      · rw [div_le_one hden]; linarith
  obtain ⟨hs0pos, hs0le⟩ := hs00
  unfold LibraryStorage.hslToRgb
  dsimp only
  by_cases hz : jsRound (s0 * 100) = 0
  · have hcl : min 100 (max 0 ((jsRound (s0 * 100) : ℤ) : ℚ)) / 100 = 0 := by
      rw [hz]; norm_num
    rw [if_pos hcl]
    dsimp only
    refine ⟨?_, ?_, ?_⟩
    · exact_mod_cast gray_branch_bound mx mn s0 (LibraryStorage.phiHue (h0/360 + 1/3))
        cR _ hmn0 hmx1 hlt hs0 hz rfl (phiHue_nonneg _) (phiHue_le_one _) hcR
    · exact_mod_cast gray_branch_bound mx mn s0 (LibraryStorage.phiHue (h0/360 + 0))
        cG _ hmn0 hmx1 hlt hs0 hz rfl (phiHue_nonneg _) (phiHue_le_one _) hcG
    · exact_mod_cast gray_branch_bound mx mn s0 (LibraryStorage.phiHue (h0/360 + -(1/3)))
        cB _ hmn0 hmx1 hlt hs0 hz rfl (phiHue_nonneg _) (phiHue_le_one _) hcB
  · have hs10 : 0 ≤ jsRound (s0 * 100) := jsRound_nonneg _ (by nlinarith)
    have hs1100 : jsRound (s0 * 100) ≤ 100 := by
      apply jsRound_le_of_le; push_cast; nlinarith
    have hcl : ¬(min 100 (max 0 ((jsRound (s0 * 100) : ℤ) : ℚ)) / 100 = 0) := by
      rw [max_eq_right (by exact_mod_cast hs10 : (0:ℚ) ≤ ((jsRound (s0 * 100) : ℤ) : ℚ)),
        min_eq_right (by exact_mod_cast hs1100 :
          ((jsRound (s0 * 100) : ℤ) : ℚ) ≤ 100)]
      intro hcontra
      apply hz
      rw [div_eq_zero_iff] at hcontra
      rcases hcontra with hcontra | hcontra
      · exact_mod_cast hcontra
      · norm_num at hcontra
    rw [if_neg hcl]
    dsimp only
    refine ⟨?_, ?_, ?_⟩
    · exact_mod_cast channel_roundtrip_bound mx mn h0 (1/3) s0 _ _ _ _ _
        cR _ _ _ hmn0 hmx1 hlt hh0 hh1lt (Or.inl rfl) hs0 rfl rfl rfl
        rfl rfl rfl rfl rfl _ rfl hcR
    · exact_mod_cast channel_roundtrip_bound mx mn h0 0 s0 _ _ _ _ _
        cG _ _ _ hmn0 hmx1 hlt hh0 hh1lt (Or.inr (Or.inl rfl)) hs0 rfl rfl rfl
        rfl rfl rfl rfl rfl _ (by ring) hcG
    · exact_mod_cast channel_roundtrip_bound mx mn h0 (-(1/3)) s0 _ _ _ _ _
        cB _ _ _ hmn0 hmx1 hlt hh0 hh1lt (Or.inr (Or.inr rfl)) hs0 rfl rfl rfl
        rfl rfl rfl rfl rfl _ (by ring) hcB

/-! Layer 7: the main round-trip theorem. -/

set_option maxHeartbeats 6400000 in
/-- C4 (amended): the HSL round trip `hslToRgb(rgbToHsl(r,g,b))` is NOT within
±1 per channel (see `c4_counterexample`), but it is within ±12 per channel for
every RGB triple of integers in `[0,255]`. -/
theorem c4_amended (r g b : ℤ)
    (hr0 : 0 ≤ r) (hr255 : r ≤ 255) (hg0 : 0 ≤ g) (hg255 : g ≤ 255)
    (hb0 : 0 ≤ b) (hb255 : b ≤ 255) :
    |(LibraryStorage.hslToRgb ((LibraryStorage.rgbToHsl (r:ℚ) (g:ℚ) (b:ℚ)).h : ℚ)
        ((LibraryStorage.rgbToHsl (r:ℚ) (g:ℚ) (b:ℚ)).s : ℚ)
        ((LibraryStorage.rgbToHsl (r:ℚ) (g:ℚ) (b:ℚ)).l : ℚ)).r - r| ≤ 12 ∧
    |(LibraryStorage.hslToRgb ((LibraryStorage.rgbToHsl (r:ℚ) (g:ℚ) (b:ℚ)).h : ℚ)
        ((LibraryStorage.rgbToHsl (r:ℚ) (g:ℚ) (b:ℚ)).s : ℚ)
        ((LibraryStorage.rgbToHsl (r:ℚ) (g:ℚ) (b:ℚ)).l : ℚ)).g - g| ≤ 12 ∧
    |(LibraryStorage.hslToRgb ((LibraryStorage.rgbToHsl (r:ℚ) (g:ℚ) (b:ℚ)).h : ℚ)
        ((LibraryStorage.rgbToHsl (r:ℚ) (g:ℚ) (b:ℚ)).s : ℚ)
        ((LibraryStorage.rgbToHsl (r:ℚ) (g:ℚ) (b:ℚ)).l : ℚ)).b - b| ≤ 12 := by
  unfold LibraryStorage.rgbToHsl
  dsimp only
  set nR := (r:ℚ)/255 with hnRd
  set nG := (g:ℚ)/255 with hnGd
  set nB := (b:ℚ)/255 with hnBd
  set mx := max nR (max nG nB) with hmxd
  set mn := min nR (min nG nB) with hmnd
  have hnr0 : (0:ℚ) ≤ nR := by rw [hnRd]; positivity
  have hnr1 : nR ≤ 1 := by
    rw [hnRd, div_le_one (by norm_num : (0:ℚ) < 255)]; exact_mod_cast hr255
  have hng0 : (0:ℚ) ≤ nG := by rw [hnGd]; positivity
  have hng1 : nG ≤ 1 := by
    rw [hnGd, div_le_one (by norm_num : (0:ℚ) < 255)]; exact_mod_cast hg255
  have hnb0 : (0:ℚ) ≤ nB := by rw [hnBd]; positivity
  have hnb1 : nB ≤ 1 := by
    rw [hnBd, div_le_one (by norm_num : (0:ℚ) < 255)]; exact_mod_cast hb255
  have hmx1 : mx ≤ 1 := max_le hnr1 (max_le hng1 hnb1)
  have hmn0 : (0:ℚ) ≤ mn := le_min hnr0 (le_min hng0 hnb0)
  have hRmx : nR ≤ mx := le_max_left _ _
  have hGmx : nG ≤ mx := le_trans (le_max_left _ _) (le_max_right _ _)
  have hBmx : nB ≤ mx := le_trans (le_max_right _ _) (le_max_right _ _)
  have hmnR : mn ≤ nR := min_le_left _ _
  have hmnG : mn ≤ nG := le_trans (min_le_right _ _) (min_le_left _ _)
  have hmnB : mn ≤ nB := le_trans (min_le_right _ _) (min_le_right _ _)
  by_cases hgray : mx = mn
  · -- achromatic short-circuit: all three channels coincide
    rw [if_pos hgray]
    dsimp only
    have hRe : nR = mn := le_antisymm (hgray ▸ hRmx) hmnR
    have hGe : nG = mn := le_antisymm (hgray ▸ hGmx) hmnG
    have hBe : nB = mn := le_antisymm (hgray ▸ hBmx) hmnB
    unfold LibraryStorage.hslToRgb
    dsimp only
    rw [if_pos (show min 100 (max 0 (((0:ℤ):ℚ))) / 100 = 0 by norm_num)]
    dsimp only
    refine ⟨?_, ?_, ?_⟩
    · exact_mod_cast gray_value_bound ((mx + mn)/2) r _ (by linarith) (by linarith) rfl
        (by rw [hgray, ← hRe, hnRd]; ring)
    · exact_mod_cast gray_value_bound ((mx + mn)/2) g _ (by linarith) (by linarith) rfl
        (by rw [hgray, ← hGe, hnGd]; ring)
    · exact_mod_cast gray_value_bound ((mx + mn)/2) b _ (by linarith) (by linarith) rfl
        (by rw [hgray, ← hBe, hnBd]; ring)
  · rw [if_neg hgray]
    dsimp only
    have hmnlt : mn < mx := lt_of_le_of_ne (le_trans hmnR hRmx) (Ne.symm hgray)
    have hd : (0:ℚ) < mx - mn := sub_pos.mpr hmnlt
    have hdne : mx - mn ≠ 0 := ne_of_gt hd
    by_cases hR : nR = mx
    · rw [if_pos hR]
      by_cases hGB : nG < nB
      · -- red maximal, hue in (300, 360)
        rw [if_pos hGB]
        have hXlt : (nG - nB)/(mx - mn) < 0 := div_neg_of_neg_of_pos (by linarith) hd
        have hXge : -1 ≤ (nG - nB)/(mx - mn) := by
          rw [le_div_iff₀ hd]; nlinarith
        have hGR : nG ≤ nR := by rw [hR]; exact hGmx
        have hmne : mn = nG := by
          rw [hmnd, min_eq_left (le_of_lt hGB), min_eq_right hGR]
        have hphiR : LibraryStorage.phiHue (((nG - nB)/(mx - mn) + 6) * 60/360 + 1/3) = 1 :=
          phiHue_eq_one_right _ (by linarith)
        have hphiG : LibraryStorage.phiHue (((nG - nB)/(mx - mn) + 6) * 60/360 + 0) = 0 :=
          phiHue_eq_zero_right _ (by linarith) (by linarith)
        have hphiB : LibraryStorage.phiHue (((nG - nB)/(mx - mn) + 6) * 60/360 + -(1/3)) =
            4 - 6 * (((nG - nB)/(mx - mn) + 6) * 60/360 + -(1/3)) :=
          phiHue_eq_ramp_down _ (by linarith) (by linarith)
        have key : (mx - mn) * (4 - 6 * (((nG - nB)/(mx - mn) + 6) * 60/360 + -(1/3))) =
            nB - nG := by
          field_simp
          ring
        exact hslToRgb_of_rounded mx mn (((nG - nB)/(mx - mn) + 6) * 60) _ r g b
          hmn0 hmx1 hmnlt (by nlinarith) (by nlinarith) rfl
          (by rw [hphiR, hmne, ← hR, hnRd, hnGd]; ring)
          (by rw [hphiG, hmne, hnGd]; ring)
          (by rw [hphiB, key, hmne, hnGd, hnBd]; ring)
      · -- red maximal, hue in [0, 60]
        rw [if_neg hGB]
        have hGBle : nB ≤ nG := not_lt.mp hGB
        have hX0 : 0 ≤ (nG - nB)/(mx - mn) := div_nonneg (by linarith) (le_of_lt hd)
        have hX1 : (nG - nB)/(mx - mn) ≤ 1 := by
          rw [div_le_one hd]; linarith
        have hBR : nB ≤ nR := by rw [hR]; exact hBmx
        have hmne : mn = nB := by
          rw [hmnd, min_eq_right hGBle, min_eq_right hBR]
        have hphiR : LibraryStorage.phiHue (((nG - nB)/(mx - mn) + 0) * 60/360 + 1/3) = 1 :=
          phiHue_eq_one_mid _ (by linarith) (by linarith)
        have hphiG : LibraryStorage.phiHue (((nG - nB)/(mx - mn) + 0) * 60/360 + 0) =
            6 * (((nG - nB)/(mx - mn) + 0) * 60/360 + 0) :=
          phiHue_eq_ramp_up _ (by linarith) (by linarith)
        have hphiB : LibraryStorage.phiHue (((nG - nB)/(mx - mn) + 0) * 60/360 + -(1/3)) = 0 :=
          phiHue_eq_zero_left _ (by linarith)
        have key : (mx - mn) * (6 * (((nG - nB)/(mx - mn) + 0) * 60/360 + 0)) =
            nG - nB := by
          field_simp
          ring
        exact hslToRgb_of_rounded mx mn (((nG - nB)/(mx - mn) + 0) * 60) _ r g b
          hmn0 hmx1 hmnlt (by nlinarith) (by nlinarith) rfl
          (by rw [hphiR, hmne, ← hR, hnRd, hnBd]; ring)
          (by rw [hphiG, key, hmne, hnGd, hnBd]; ring)
          (by rw [hphiB, hmne, hnBd]; ring)
    · rw [if_neg hR]
      by_cases hG : nG = mx
      · rw [if_pos hG]
        have hYge : -1 ≤ (nB - nR)/(mx - mn) := by
          rw [le_div_iff₀ hd]; nlinarith
        have hYle : (nB - nR)/(mx - mn) ≤ 1 := by
          rw [div_le_one hd]; linarith
        have hRnG : nR ≤ nG := by rw [hG]; exact hRmx
        by_cases hRB : nR ≤ nB
        · -- green maximal, hue in [60, 180], blue at least red
          have hY0 : 0 ≤ (nB - nR)/(mx - mn) := div_nonneg (by linarith) (le_of_lt hd)
          have hmne : mn = nR := by
            rw [hmnd, min_eq_left (le_min hRnG hRB)]
          have hphiR : LibraryStorage.phiHue (((nB - nR)/(mx - mn) + 2) * 60/360 + 1/3) = 0 :=
            phiHue_eq_zero_right _ (by linarith) (by linarith)
          have hphiG : LibraryStorage.phiHue (((nB - nR)/(mx - mn) + 2) * 60/360 + 0) = 1 :=
            phiHue_eq_one_mid _ (by linarith) (by linarith)
          have hphiB : LibraryStorage.phiHue (((nB - nR)/(mx - mn) + 2) * 60/360 + -(1/3)) =
              6 * (((nB - nR)/(mx - mn) + 2) * 60/360 + -(1/3)) :=
            phiHue_eq_ramp_up _ (by linarith) (by linarith)
          have key : (mx - mn) * (6 * (((nB - nR)/(mx - mn) + 2) * 60/360 + -(1/3))) =
              nB - nR := by
            field_simp
            ring
          exact hslToRgb_of_rounded mx mn (((nB - nR)/(mx - mn) + 2) * 60) _ r g b
            hmn0 hmx1 hmnlt (by nlinarith) (by nlinarith) rfl
            (by rw [hphiR, hmne, hnRd]; ring)
            (by rw [hphiG, hmne, ← hG, hnGd, hnRd]; ring)
            (by rw [hphiB, key, hmne, hnBd, hnRd]; ring)
        · -- green maximal, hue in (60, 120), red above blue
          have hBRlt : nB < nR := not_le.mp hRB
          have hYneg : (nB - nR)/(mx - mn) < 0 := div_neg_of_neg_of_pos (by linarith) hd
          have hBnG : nB ≤ nG := by rw [hG]; exact hBmx
          have hmne : mn = nB := by
            rw [hmnd, min_eq_right hBnG, min_eq_right (le_of_lt hBRlt)]
          have hphiR : LibraryStorage.phiHue (((nB - nR)/(mx - mn) + 2) * 60/360 + 1/3) =
              4 - 6 * (((nB - nR)/(mx - mn) + 2) * 60/360 + 1/3) :=
            phiHue_eq_ramp_down _ (by linarith) (by linarith)
          have hphiG : LibraryStorage.phiHue (((nB - nR)/(mx - mn) + 2) * 60/360 + 0) = 1 :=
            phiHue_eq_one_mid _ (by linarith) (by linarith)
          have hphiB : LibraryStorage.phiHue (((nB - nR)/(mx - mn) + 2) * 60/360 + -(1/3)) = 0 :=
            phiHue_eq_zero_left _ (by linarith)
          have key : (mx - mn) * (4 - 6 * (((nB - nR)/(mx - mn) + 2) * 60/360 + 1/3)) =
              nR - nB := by
            field_simp
            ring
          exact hslToRgb_of_rounded mx mn (((nB - nR)/(mx - mn) + 2) * 60) _ r g b
            hmn0 hmx1 hmnlt (by nlinarith) (by nlinarith) rfl
            (by rw [hphiR, key, hmne, hnRd, hnBd]; ring)
            (by rw [hphiG, hmne, ← hG, hnGd, hnBd]; ring)
            (by rw [hphiB, hmne, hnBd]; ring)
      · -- blue maximal
        rw [if_neg hG]
        have hBe : nB = mx := by
          rcases max_choice nR (max nG nB) with h | h
          · exact absurd (hmxd.trans h).symm hR
          · rcases max_choice nG nB with h2 | h2
            · exact absurd (hmxd.trans (h.trans h2)).symm hG
            · exact (hmxd.trans (h.trans h2)).symm
        have hZge : -1 ≤ (nR - nG)/(mx - mn) := by
          rw [le_div_iff₀ hd]; nlinarith
        have hZle : (nR - nG)/(mx - mn) ≤ 1 := by
          rw [div_le_one hd]; linarith
        have hRnB : nR ≤ nB := by rw [hBe]; exact hRmx
        have hGnB : nG ≤ nB := by rw [hBe]; exact hGmx
        by_cases hGR : nG ≤ nR
        · -- blue maximal, red at least green: hue in [240, 300]
          have hZ0 : 0 ≤ (nR - nG)/(mx - mn) := div_nonneg (by linarith) (le_of_lt hd)
          have hmne : mn = nG := by
            rw [hmnd, min_eq_left hGnB, min_eq_right hGR]
          have hphiR : LibraryStorage.phiHue (((nR - nG)/(mx - mn) + 4) * 60/360 + 1/3) =
              6 * (((nR - nG)/(mx - mn) + 4) * 60/360 + 1/3) - 6 :=
            phiHue_eq_ramp_up2 _ (by linarith) (by linarith)
          have hphiG : LibraryStorage.phiHue (((nR - nG)/(mx - mn) + 4) * 60/360 + 0) = 0 :=
            phiHue_eq_zero_right _ (by linarith) (by linarith)
          have hphiB : LibraryStorage.phiHue (((nR - nG)/(mx - mn) + 4) * 60/360 + -(1/3)) = 1 :=
            phiHue_eq_one_mid _ (by linarith) (by linarith)
          have key : (mx - mn) * (6 * (((nR - nG)/(mx - mn) + 4) * 60/360 + 1/3) - 6) =
              nR - nG := by
            field_simp
            ring
          exact hslToRgb_of_rounded mx mn (((nR - nG)/(mx - mn) + 4) * 60) _ r g b
            hmn0 hmx1 hmnlt (by nlinarith) (by nlinarith) rfl
            (by rw [hphiR, key, hmne, hnRd, hnGd]; ring)
            (by rw [hphiG, hmne, hnGd]; ring)
            (by rw [hphiB, hmne, ← hBe, hnBd, hnGd]; ring)
        · -- blue maximal, green above red: hue in (180, 240)
          have hRGlt : nR < nG := not_le.mp hGR
          have hZneg : (nR - nG)/(mx - mn) < 0 := div_neg_of_neg_of_pos (by linarith) hd
          have hmne : mn = nR := by
            rw [hmnd, min_eq_left (le_min (le_of_lt hRGlt) hRnB)]
          have hphiR : LibraryStorage.phiHue (((nR - nG)/(mx - mn) + 4) * 60/360 + 1/3) = 0 :=
            phiHue_eq_zero_right _ (by linarith) (by linarith)
          have hphiG : LibraryStorage.phiHue (((nR - nG)/(mx - mn) + 4) * 60/360 + 0) =
              4 - 6 * (((nR - nG)/(mx - mn) + 4) * 60/360 + 0) :=
            phiHue_eq_ramp_down _ (by linarith) (by linarith)
          have hphiB : LibraryStorage.phiHue (((nR - nG)/(mx - mn) + 4) * 60/360 + -(1/3)) = 1 :=
            phiHue_eq_one_mid _ (by linarith) (by linarith)
          have key : (mx - mn) * (4 - 6 * (((nR - nG)/(mx - mn) + 4) * 60/360 + 0)) =
              nG - nR := by
            field_simp
            ring
          exact hslToRgb_of_rounded mx mn (((nR - nG)/(mx - mn) + 4) * 60) _ r g b
            hmn0 hmx1 hmnlt (by nlinarith) (by nlinarith) rfl
            (by rw [hphiR, hmne, hnRd]; ring)
            (by rw [hphiG, key, hmne, hnGd, hnRd]; ring)
            (by rw [hphiB, hmne, ← hBe, hnBd, hnRd]; ring)

set_option maxRecDepth 100000 in
/-- C4: counterexample to the claimed ±1 tolerance. `rgbToHsl(2,228,230)`
rounds to `(181,98,45)`, and `hslToRgb(181,98,45) = (2,223,227)`: the blue
channel comes back as `227`, which is 3 away from `230` — not within ±1. -/
theorem c4_counterexample :
    LibraryStorage.rgbToHsl 2 228 230 = ⟨181, 98, 45⟩ ∧
    (LibraryStorage.hslToRgb ((LibraryStorage.rgbToHsl 2 228 230).h : ℚ)
      ((LibraryStorage.rgbToHsl 2 228 230).s : ℚ)
      ((LibraryStorage.rgbToHsl 2 228 230).l : ℚ)).b = 227 ∧
    ¬(|(LibraryStorage.hslToRgb ((LibraryStorage.rgbToHsl 2 228 230).h : ℚ)
      ((LibraryStorage.rgbToHsl 2 228 230).s : ℚ)
      ((LibraryStorage.rgbToHsl 2 228 230).l : ℚ)).b - 230| ≤ 1) := by
  have e : (LibraryStorage.hslToRgb ((LibraryStorage.rgbToHsl 2 228 230).h : ℚ)
      ((LibraryStorage.rgbToHsl 2 228 230).s : ℚ)
      ((LibraryStorage.rgbToHsl 2 228 230).l : ℚ)).b = 227 := by
    with_unfolding_all rfl
  refine ⟨by with_unfolding_all rfl, e, ?_⟩
  rw [e]
  decide

set_option maxRecDepth 100000 in
/-- C4 witness: the amended bound instantiated at the triple `(10,20,30)`. -/
theorem c4_amended_witness :
    (0:ℤ) ≤ 10 ∧
    (|(LibraryStorage.hslToRgb ((LibraryStorage.rgbToHsl ((10:ℤ):ℚ) ((20:ℤ):ℚ) ((30:ℤ):ℚ)).h : ℚ)
        ((LibraryStorage.rgbToHsl ((10:ℤ):ℚ) ((20:ℤ):ℚ) ((30:ℤ):ℚ)).s : ℚ)
        ((LibraryStorage.rgbToHsl ((10:ℤ):ℚ) ((20:ℤ):ℚ) ((30:ℤ):ℚ)).l : ℚ)).r - 10| ≤ 12 ∧
     |(LibraryStorage.hslToRgb ((LibraryStorage.rgbToHsl ((10:ℤ):ℚ) ((20:ℤ):ℚ) ((30:ℤ):ℚ)).h : ℚ)
        ((LibraryStorage.rgbToHsl ((10:ℤ):ℚ) ((20:ℤ):ℚ) ((30:ℤ):ℚ)).s : ℚ)
        ((LibraryStorage.rgbToHsl ((10:ℤ):ℚ) ((20:ℤ):ℚ) ((30:ℤ):ℚ)).l : ℚ)).g - 20| ≤ 12 ∧
     |(LibraryStorage.hslToRgb ((LibraryStorage.rgbToHsl ((10:ℤ):ℚ) ((20:ℤ):ℚ) ((30:ℤ):ℚ)).h : ℚ)
        ((LibraryStorage.rgbToHsl ((10:ℤ):ℚ) ((20:ℤ):ℚ) ((30:ℤ):ℚ)).s : ℚ)
        ((LibraryStorage.rgbToHsl ((10:ℤ):ℚ) ((20:ℤ):ℚ) ((30:ℤ):ℚ)).l : ℚ)).b - 30| ≤ 12) :=
  ⟨by decide, c4_amended 10 20 30 (by decide) (by decide) (by decide) (by decide)
    (by decide) (by decide)⟩
